import Mathlib

/-!
Shallow embedding of the multi-account AWS MCP bridge.

Source files embedded:
* src/agentcore-gateway/lambda/handler.py  (Lambda bridge: credential cache,
  MCP session caches, SigV4-signed JSON-RPC calls, gateway dispatch)
* src/direct-proxy/agent/account_manager.py (AccountManager: credential cache
  with timezone-normalising staleness check)

Python's mutable module-level caches become explicit state threaded through
the functions; every network call (sts.assume_role, HTTP POST to the MCP
endpoint) is recorded as an event and its outcome is supplied by an
environment (an oracle mapping each outbound request to a response or a
raised exception).  Python exceptions become `Except String`; the Lambda
handler's try/except boundary renders them as error objects.  Times are
integers (seconds); timedelta(minutes=5) is 300, DurationSeconds=3600 stays
3600.
-/

set_option maxRecDepth 4000

/-- Minimal JSON value model for tool arguments and response bodies. -/
inductive Json where
  | null
  | bool (b : Bool)
  | int (n : Int)
  | str (s : String)
  | arr (elems : List Json)
  | obj (fields : List (String × Json))

/-- Response bodies are parsed JSON-RPC objects: a list of (key, value) fields,
as produced by json.loads on the wire response. -/
abbrev Body := List (String × Json)

/-- HTTP response headers as returned by dict(resp.headers): keys keep the
exact casing sent by the server, and lookup on the dict is case-sensitive. -/
abbrev Headers := List (String × String)

/-- Lowercasing of a header key, character by character (used to express
case-insensitive header matching in claim statements). -/
def lowerStr (s : String) : String := String.mk (s.data.map Char.toLower)

/-- Association-list lookup modelling Python dict membership plus indexing. -/
def lookupA {α : Type} : List (String × α) → String → Option α
  | [], _ => none
  | (k, v) :: t, key => if k = key then some v else lookupA t key

/-- Association-list insertion modelling Python dict assignment d[k] = v:
the entry for k is replaced wholesale, all other entries are untouched. -/
def insertA {α : Type} : List (String × α) → String → α → List (String × α)
  | [], key, v => [(key, v)]
  | (k, w) :: t, key, v =>
      if k = key then (key, v) :: t else (k, w) :: insertA t key v

/-- Python truthiness of an optional string: None and the empty string are
falsy, every non-empty string is truthy. -/
def truthy : Option String → Bool
  | none => false
  | some s => !s.isEmpty

/-- Python's a or b on optional strings: the first operand if truthy,
otherwise the second. -/
def pyOr (a b : Option String) : Option String :=
  if truthy a then a else b

/-- Python 'error' in result on a parsed JSON object: key membership. -/
def hasErrorKey (b : Body) : Bool :=
  b.any (fun f => f.1 == "error")

/-- Temporary credentials as cached by the Lambda bridge (dict with four
keys; expiration is an absolute UTC instant in seconds). -/
structure Creds where
  access_key_id : String
  secret_access_key : String
  session_token : String
  expiration : Int
deriving Repr, DecidableEq

/-- Successful sts.assume_role response (the Credentials sub-object). -/
structure StsResp where
  accessKeyId : String
  secretAccessKey : String
  sessionToken : String
  expiration : Int
deriving Repr, DecidableEq

/-- Outcome of one outbound network call: a response, or a raised exception
(connection error, timeout after 120s, throttling, ...). -/
inductive NetResult (α : Type) where
  | ok (v : α)
  | exn (msg : String)

/-- Credential context a request is signed with: the Lambda's own ambient
identity, or temporary credentials assumed in a target account (with the
boto3.Session region). -/
inductive CredCtx where
  | lambdaOwn
  | assumed (creds : Creds) (region : String)

/-- JSON-RPC params of the two request kinds the bridge sends. -/
inductive Params where
  | initParams (clientName : String) (clientVersion : String)
  | callParams (toolName : String) (arguments : Json)

/-- One outbound signed POST to the MCP endpoint, as assembled by
make_mcp_request: method, params, signing context, and the
Mcp-Session-Id request header when a truthy session id was supplied. -/
structure McpCall where
  method : String
  params : Params
  ctx : CredCtx
  sessionHeader : Option String

/-- Network events the bridge can emit, in order of occurrence. -/
inductive Event where
  | assumeRole (account_id : String) (roleSessionName : String) (durationSeconds : Int)
  | mcpPost (call : McpCall)

/-- Predicate: the event is an sts.assume_role call. -/
def isAssumeEvent : Event → Bool
  | .assumeRole _ _ _ => true
  | _ => false

/-- Predicate: the event is an initialize handshake POST. -/
def isInitEvent : Event → Bool
  | .mcpPost c => c.method == "initialize"
  | _ => false

/-- Predicate: the event is a tools/call POST. -/
def isToolsCallEvent : Event → Bool
  | .mcpPost c => c.method == "tools/call"
  | _ => false

/-- Environment (oracle) for one Lambda invocation: the current UTC time
read by datetime.now, the STS response per target account, and the MCP
server's response to each outbound call. -/
structure GwEnv where
  nowSec : Int
  sts : String → NetResult StsResp
  mcp : McpCall → NetResult (Body × Headers)

/-- Module-level mutable state of handler.py that persists across warm
invocations: credential_cache, session_cache, global_session_id. -/
structure BridgeState where
  credential_cache : List (String × Creds)
  session_cache : List (String × String)
  global_session_id : Option String

namespace Handler

/-- Constant GLOBAL_TOOLS of handler.py. -/
def GLOBAL_TOOLS : List String :=
  [ "aws___search_documentation",
    "aws___read_documentation",
    "aws___retrieve_agent_sop",
    "aws___recommend",
    "aws___suggest_aws_commands" ]

/-- Constant TARGET_ROLE_NAME of handler.py. -/
def TARGET_ROLE_NAME : String := "CentralOpsTargetRole"

/-- Builds the Creds dict stored by get_credentials from an STS response. -/
def credsOfResp (r : StsResp) : Creds :=
  ⟨r.accessKeyId, r.secretAccessKey, r.sessionToken, r.expiration⟩

/-- Embeds handler.py get_credentials: return the cached record when
now + 5 minutes < expiration, otherwise assume the target role for 3600
seconds, store the fresh record keyed by account_id, and return it.
Returns (new state, events, result). -/
def get_credentials (env : GwEnv) (st : BridgeState) (account_id : String) :
    BridgeState × List Event × Except String Creds :=
  let hit :=
    match lookupA st.credential_cache account_id with
    | some creds => if env.nowSec + 300 < creds.expiration then some creds else none
    | none => none
  match hit with
  | some creds => (st, [], .ok creds)
  | none =>
    let ev := Event.assumeRole account_id ("Bridge-" ++ account_id) 3600
    match env.sts account_id with
    | .exn m => (st, [ev], .error m)
    | .ok r =>
      let creds := credsOfResp r
      ({ st with credential_cache := insertA st.credential_cache account_id creds },
       [ev], .ok creds)

/-- Embeds the request-header assembly of make_mcp_request: the
Mcp-Session-Id header is added exactly when session_id is truthy. -/
def sessionHeaderOf (session_id : Option String) : Option String :=
  if truthy session_id then session_id else none

/-- Embeds make_mcp_request: assemble the JSON-RPC POST (adding the
Mcp-Session-Id header when session_id is truthy), sign it with the given
credential context, and send it; the event is recorded whether or not the
call raises. -/
def make_mcp_request (env : GwEnv) (method : String) (params : Params)
    (ctx : CredCtx) (session_id : Option String) :
    List Event × Except String (Body × Headers) :=
  let call : McpCall := ⟨method, params, ctx, sessionHeaderOf session_id⟩
  match env.mcp call with
  | .exn m => ([Event.mcpPost call], .error m)
  | .ok bh => ([Event.mcpPost call], .ok bh)

/-- Fixed initialize call payload for account-scoped sessions (clientInfo
name aws-mcp-bridge), as built in get_or_create_mcp_session. -/
def initCall (ctx : CredCtx) : McpCall :=
  ⟨"initialize", .initParams "aws-mcp-bridge" "1.0.0", ctx, none⟩

/-- Fixed initialize call payload for the global session (clientInfo name
aws-mcp-bridge-global), as built in get_or_create_global_mcp_session. -/
def initCallGlobal : McpCall :=
  ⟨"initialize", .initParams "aws-mcp-bridge-global" "1.0.0", CredCtx.lambdaOwn, none⟩

/-- Embeds the line session_id = headers.get('Mcp-Session-Id') or
headers.get('mcp-session-id'): dict lookup under exactly those two key
casings, combined with Python or. -/
def sessionIdFromHeaders (headers : Headers) : Option String :=
  pyOr (lookupA headers "Mcp-Session-Id") (lookupA headers "mcp-session-id")

/-- Embeds get_or_create_mcp_session: return the cached session id for the
account if present, otherwise send an initialize handshake; on a response
whose headers carry the session id under one of the two exact keys
Mcp-Session-Id / mcp-session-id (dict lookup is case-sensitive) and whose
body has no error field, cache and return it; otherwise raise. -/
def get_or_create_mcp_session (env : GwEnv) (st : BridgeState)
    (account_id : String) (ctx : CredCtx) :
    BridgeState × List Event × Except String String :=
  match lookupA st.session_cache account_id with
  | some sid => (st, [], .ok sid)
  | none =>
    match make_mcp_request env "initialize"
        (.initParams "aws-mcp-bridge" "1.0.0") ctx none with
    | (evs, .error m) => (st, evs, .error m)
    | (evs, .ok (result, headers)) =>
      let session_id := sessionIdFromHeaders headers
      if truthy session_id && !hasErrorKey result then
        let sid := session_id.getD ""
        ({ st with session_cache := insertA st.session_cache account_id sid },
         evs, .ok sid)
      else
        (st, evs, .error "Failed to initialize MCP session")

/-- Embeds get_or_create_global_mcp_session: same handshake but keyed to the
single global scope and signed with the Lambda's own credentials. -/
def get_or_create_global_mcp_session (env : GwEnv) (st : BridgeState) :
    BridgeState × List Event × Except String String :=
  if truthy st.global_session_id then
    (st, [], .ok (st.global_session_id.getD ""))
  else
    match make_mcp_request env "initialize"
        (.initParams "aws-mcp-bridge-global" "1.0.0") CredCtx.lambdaOwn none with
    | (evs, .error m) => (st, evs, .error m)
    | (evs, .ok (result, headers)) =>
      let session_id := sessionIdFromHeaders headers
      if truthy session_id && !hasErrorKey result then
        let sid := session_id.getD ""
        ({ st with global_session_id := some sid }, evs, .ok sid)
      else
        (st, evs, .error "Failed to initialize global MCP session")

/-- Embeds call_aws_mcp: fetch (and cache) account credentials, build a boto
session from them, obtain or establish the account's MCP session, then send
the tools/call request under that session header. -/
def call_aws_mcp (env : GwEnv) (st : BridgeState) (tool_name : String)
    (arguments : Json) (account_id : String) (region : String) :
    BridgeState × List Event × Except String Body :=
  match get_credentials env st account_id with
  | (st1, evs1, .error m) => (st1, evs1, .error m)
  | (st1, evs1, .ok creds) =>
    let ctx := CredCtx.assumed creds region
    match get_or_create_mcp_session env st1 account_id ctx with
    | (st2, evs2, .error m) => (st2, evs1 ++ evs2, .error m)
    | (st2, evs2, .ok sid) =>
      match make_mcp_request env "tools/call"
          (.callParams tool_name arguments) ctx (some sid) with
      | (evs3, .error m) => (st2, evs1 ++ evs2 ++ evs3, .error m)
      | (evs3, .ok (body, _)) => (st2, evs1 ++ evs2 ++ evs3, .ok body)

/-- Embeds call_aws_mcp_global: obtain or establish the shared global MCP
session under the Lambda's own identity, then send the tools/call request. -/
def call_aws_mcp_global (env : GwEnv) (st : BridgeState) (tool_name : String)
    (arguments : Json) : BridgeState × List Event × Except String Body :=
  match get_or_create_global_mcp_session env st with
  | (st1, evs1, .error m) => (st1, evs1, .error m)
  | (st1, evs1, .ok sid) =>
    match make_mcp_request env "tools/call"
        (.callParams tool_name arguments) CredCtx.lambdaOwn (some sid) with
    | (evs2, .error m) => (st1, evs1 ++ evs2, .error m)
    | (evs2, .ok (body, _)) => (st1, evs1 ++ evs2, .ok body)

/-- Characters after the first occurrence of the separator ___ in a
character list; none when the separator does not occur. -/
def afterTripleUnderscore : List Char → Option (List Char)
  | [] => none
  | c1 :: rest =>
    if c1 = '_' then
      match rest with
      | c2 :: c3 :: rest2 =>
        if c2 = '_' ∧ c3 = '_' then some rest2
        else afterTripleUnderscore rest
      | _ => afterTripleUnderscore rest
    else afterTripleUnderscore rest

/-- Python full_tool_name.split('___', 1)[1] when '___' occurs in the name,
else the name unchanged, as in the gateway dispatch prologue. -/
def splitToolName (full : String) : String :=
  match afterTripleUnderscore full.data with
  | some rest => String.mk rest
  | none => full

/-- Gateway invocation event payload: the tool arguments passed directly in
the Lambda event (each field optional, mirroring event.get). -/
structure GatewayEvent where
  account_id : Option String
  tool_name : Option String
  arguments : Option Json
  region : Option String

/-- Result returned by the handler on the gateway path: the raw downstream
JSON-RPC body, or a structured error object with one error field. -/
inductive Response where
  | raw (body : Body)
  | errorObj (msg : String)

/-- Renders the try/except boundary of the handler: a successful downstream
body is returned unchanged, a raised exception becomes an error object. -/
def renderResult : Except String Body → Response
  | .ok body => .raw body
  | .error m => .errorObj m

/-- Embeds the gateway path of handler (context carries a
bedrockAgentCoreToolName, so this is a Gateway invocation; the legacy
direct-invocation shape, handler.py lines 267-299, is not modelled): split
the gateway tool name on the first triple underscore; on the query tool,
validate tool_name, route global tools to call_aws_mcp_global, require a
truthy account_id for everything else and route to call_aws_mcp, catching
every exception as an error object; on any other gateway tool name return
an Unknown tool error. -/
def handler (env : GwEnv) (st : BridgeState) (full_tool_name : String)
    (event : GatewayEvent) : BridgeState × List Event × Response :=
  let tool_name := splitToolName full_tool_name
  if tool_name = "query" then
    let account_id := event.account_id
    let mcp_tool := event.tool_name
    let tool_args := (event.arguments).getD (Json.obj [])
    let region := (event.region).getD "us-east-1"
    if !truthy mcp_tool then
      (st, [], .errorObj "Missing tool_name")
    else
      let t := mcp_tool.getD ""
      if GLOBAL_TOOLS.contains t then
        match call_aws_mcp_global env st t tool_args with
        | (st1, evs, r) => (st1, evs, renderResult r)
      else if !truthy account_id then
        (st, [], .errorObj ("Missing account_id (required for " ++ t ++ ")"))
      else
        match call_aws_mcp env st t tool_args (account_id.getD "") region with
        | (st1, evs, r) => (st1, evs, renderResult r)
  else
    (st, [], .errorObj ("Unknown tool: " ++ tool_name))

theorem handler_not_query (env : GwEnv) (st : BridgeState) (full : String)
    (event : GatewayEvent) (h : ¬ splitToolName full = "query") :
    handler env st full event =
      (st, [], .errorObj ("Unknown tool: " ++ splitToolName full)) := by
  simp [handler, h]

theorem handler_missing_tool (env : GwEnv) (st : BridgeState) (full : String)
    (event : GatewayEvent) (hq : splitToolName full = "query")
    (ht : truthy event.tool_name = false) :
    handler env st full event = (st, [], .errorObj "Missing tool_name") := by
  simp [handler, hq, ht]

theorem handler_global (env : GwEnv) (st : BridgeState) (full : String)
    (event : GatewayEvent) (t : String) (st1 : BridgeState) (evs : List Event)
    (r : Except String Body) (hq : splitToolName full = "query")
    (ht : event.tool_name = some t) (htt : truthy (some t) = true)
    (hg : GLOBAL_TOOLS.contains t = true)
    (hcall : call_aws_mcp_global env st t ((event.arguments).getD (Json.obj [])) =
      (st1, evs, r)) :
    handler env st full event = (st1, evs, renderResult r) := by
  have hg' : t ∈ GLOBAL_TOOLS := by simpa using hg
  simp [handler, hq, ht, htt, hg', hcall]

theorem handler_missing_account (env : GwEnv) (st : BridgeState) (full : String)
    (event : GatewayEvent) (t : String) (hq : splitToolName full = "query")
    (ht : event.tool_name = some t) (htt : truthy (some t) = true)
    (hg : GLOBAL_TOOLS.contains t = false)
    (ha : truthy event.account_id = false) :
    handler env st full event =
      (st, [], .errorObj ("Missing account_id (required for " ++ t ++ ")")) := by
  have hg' : t ∉ GLOBAL_TOOLS := by simpa using hg
  simp [handler, hq, ht, htt, hg', ha]

theorem handler_account (env : GwEnv) (st : BridgeState) (full : String)
    (event : GatewayEvent) (t : String) (st1 : BridgeState) (evs : List Event)
    (r : Except String Body) (hq : splitToolName full = "query")
    (ht : event.tool_name = some t) (htt : truthy (some t) = true)
    (hg : GLOBAL_TOOLS.contains t = false)
    (ha : truthy event.account_id = true)
    (hcall : call_aws_mcp env st t ((event.arguments).getD (Json.obj []))
      (event.account_id.getD "") ((event.region).getD "us-east-1") = (st1, evs, r)) :
    handler env st full event = (st1, evs, renderResult r) := by
  have hg' : t ∉ GLOBAL_TOOLS := by simpa using hg
  simp [handler, hq, ht, htt, hg', ha, hcall]

end Handler

/-- Python datetime model: the wall-clock reading in seconds, plus the
tzinfo as an optional UTC offset in seconds (none = naive). An aware
datetime denotes the absolute instant wall - offset; comparison of two
aware datetimes compares instants. -/
structure PyDatetime where
  wall : Int
  tz : Option Int
deriving Repr, DecidableEq

/-- Absolute instant denoted by an aware datetime (offset defaulted to 0,
only meaningful when tz is set). -/
def instantOf (d : PyDatetime) : Int :=
  d.wall - d.tz.getD 0

namespace AccountManager

/-- AccountCredentials dataclass of account_manager.py. -/
structure AMCreds where
  access_key_id : String
  secret_access_key : String
  session_token : String
  expiration : PyDatetime
  account_id : String
deriving Repr, DecidableEq

/-- Successful sts.assume_role response as consumed by AccountManager
(expiration is a datetime that may be naive or aware). -/
structure AMStsResp where
  accessKeyId : String
  secretAccessKey : String
  sessionToken : String
  expiration : PyDatetime
deriving Repr, DecidableEq

/-- Environment for AccountManager calls: the current UTC instant read by
datetime.now(timezone.utc) and the STS oracle per account. -/
structure AmEnv where
  nowSec : Int
  sts : String → NetResult AMStsResp

/-- Embeds AccountManager._is_expired: a naive expiration gets
tzinfo=timezone.utc attached (same wall reading, offset 0), then the check
is now + REFRESH_BUFFER >= expiration as an aware-datetime comparison. -/
def _is_expired (nowSec : Int) (expiration : PyDatetime) : Bool :=
  let e := match expiration.tz with
    | none => { expiration with tz := some 0 }
    | some _ => expiration
  decide (nowSec + 300 ≥ instantOf e)

/-- Builds the AccountCredentials stored by AccountManager.get_credentials
from an STS response and the account id. -/
def amCredsOfResp (r : AMStsResp) (account_id : String) : AMCreds :=
  ⟨r.accessKeyId, r.secretAccessKey, r.sessionToken, r.expiration, account_id⟩

/-- Embeds AccountManager.get_credentials: return the cached record when it
is not expired or expiring soon, otherwise assume CentralOpsTargetRole for
SESSION_DURATION (3600) seconds, store the fresh record keyed by
account_id, and return it. -/
def get_credentials (env : AmEnv) (cache : List (String × AMCreds))
    (account_id : String) :
    List (String × AMCreds) × List Event × Except String AMCreds :=
  let hit :=
    match lookupA cache account_id with
    | some creds => if _is_expired env.nowSec creds.expiration then none else some creds
    | none => none
  match hit with
  | some creds => (cache, [], .ok creds)
  | none =>
    let ev := Event.assumeRole account_id ("CentralOps-" ++ account_id) 3600
    match env.sts account_id with
    | .exn m => (cache, [ev], .error m)
    | .ok r =>
      let creds := amCredsOfResp r account_id
      (insertA cache account_id creds, [ev], .ok creds)

theorem am_hit (env : AmEnv) (cache : List (String × AMCreds)) (a : String)
    (c : AMCreds) (hc : lookupA cache a = some c)
    (hf : _is_expired env.nowSec c.expiration = false) :
    get_credentials env cache a = (cache, [], .ok c) := by
  simp [get_credentials, hc, hf]

theorem am_stale_ok (env : AmEnv) (cache : List (String × AMCreds)) (a : String)
    (c : AMCreds) (r : AMStsResp) (hc : lookupA cache a = some c)
    (hf : _is_expired env.nowSec c.expiration = true) (hsts : env.sts a = .ok r) :
    get_credentials env cache a =
      (insertA cache a (amCredsOfResp r a),
       [Event.assumeRole a ("CentralOps-" ++ a) 3600], .ok (amCredsOfResp r a)) := by
  simp [get_credentials, hc, hf, hsts]

theorem am_miss_ok (env : AmEnv) (cache : List (String × AMCreds)) (a : String)
    (r : AMStsResp) (hc : lookupA cache a = none) (hsts : env.sts a = .ok r) :
    get_credentials env cache a =
      (insertA cache a (amCredsOfResp r a),
       [Event.assumeRole a ("CentralOps-" ++ a) 3600], .ok (amCredsOfResp r a)) := by
  simp [get_credentials, hc, hsts]

theorem am_miss_err (env : AmEnv) (cache : List (String × AMCreds)) (a : String)
    (m : String) (hc : lookupA cache a = none) (hsts : env.sts a = .exn m) :
    get_credentials env cache a =
      (cache, [Event.assumeRole a ("CentralOps-" ++ a) 3600], .error m) := by
  simp [get_credentials, hc, hsts]

end AccountManager

/-- Expiration timestamp read as UTC, following the specification's words:
a timestamp with no timezone information is interpreted as UTC (its wall
reading taken as the UTC instant); an aware timestamp denotes its absolute
instant. This is the spec-side definition compared against _is_expired. -/
def specExpirationReadAsUtc (d : PyDatetime) : Int :=
  match d.tz with
  | none => d.wall
  | some off => d.wall - off

section AListLemmas

variable {α : Type}

theorem lookupA_insertA_self (m : List (String × α)) (k : String) (v : α) :
    lookupA (insertA m k v) k = some v := by
  induction m with
  | nil => simp [insertA, lookupA]
  | cons hd t ih =>
    by_cases h : hd.1 = k
    · simp [insertA, h, lookupA]
    · simp [insertA, h, lookupA, ih]

theorem lookupA_insertA_ne (m : List (String × α)) (k k' : String) (v : α)
    (hne : k' ≠ k) : lookupA (insertA m k v) k' = lookupA m k' := by
  have hne' : ¬ k = k' := fun h => hne h.symm
  induction m with
  | nil => simp [insertA, lookupA, hne']
  | cons hd t ih =>
    by_cases h : hd.1 = k
    · subst h
      simp [insertA, lookupA, hne']
    · simp [insertA, h, lookupA, ih]

theorem lookupA_mem {m : List (String × α)} {k : String} {v : α}
    (h : lookupA m k = some v) : (k, v) ∈ m := by
  induction m with
  | nil => simp [lookupA] at h
  | cons hd t ih =>
    by_cases hk : hd.1 = k
    · simp [lookupA, hk] at h
      subst h
      have : hd = (k, hd.2) := by
        cases hd
        simp_all
      rw [← this]
      exact List.mem_cons_self _ _
    · simp [lookupA, hk] at h
      exact List.mem_cons_of_mem _ (ih h)

end AListLemmas

namespace Handler

theorem get_credentials_hit (env : GwEnv) (st : BridgeState) (a : String)
    (c : Creds) (hc : lookupA st.credential_cache a = some c)
    (hfresh : env.nowSec + 300 < c.expiration) :
    get_credentials env st a = (st, [], .ok c) := by
  simp [get_credentials, hc, hfresh]

theorem get_credentials_stale_ok (env : GwEnv) (st : BridgeState) (a : String)
    (c : Creds) (r : StsResp) (hc : lookupA st.credential_cache a = some c)
    (hstale : ¬ env.nowSec + 300 < c.expiration) (hsts : env.sts a = .ok r) :
    get_credentials env st a =
      ({ st with credential_cache := insertA st.credential_cache a (credsOfResp r) },
       [Event.assumeRole a ("Bridge-" ++ a) 3600], .ok (credsOfResp r)) := by
  simp [get_credentials, hc, hstale, hsts]

theorem get_credentials_miss_ok (env : GwEnv) (st : BridgeState) (a : String)
    (r : StsResp) (hc : lookupA st.credential_cache a = none)
    (hsts : env.sts a = .ok r) :
    get_credentials env st a =
      ({ st with credential_cache := insertA st.credential_cache a (credsOfResp r) },
       [Event.assumeRole a ("Bridge-" ++ a) 3600], .ok (credsOfResp r)) := by
  simp [get_credentials, hc, hsts]

theorem get_credentials_miss_err (env : GwEnv) (st : BridgeState) (a : String)
    (m : String) (hc : lookupA st.credential_cache a = none)
    (hsts : env.sts a = .exn m) :
    get_credentials env st a =
      (st, [Event.assumeRole a ("Bridge-" ++ a) 3600], .error m) := by
  simp [get_credentials, hc, hsts]

theorem sessionHeaderOf_none : sessionHeaderOf none = none := rfl

theorem make_mcp_request_eq (env : GwEnv) (method : String) (params : Params)
    (ctx : CredCtx) :
    make_mcp_request env method params ctx none =
      (match env.mcp ⟨method, params, ctx, none⟩ with
       | .exn m => ([Event.mcpPost ⟨method, params, ctx, none⟩], .error m)
       | .ok bh => ([Event.mcpPost ⟨method, params, ctx, none⟩], .ok bh)) := by
  simp [make_mcp_request, sessionHeaderOf_none]

theorem session_hit (env : GwEnv) (st : BridgeState) (a : String)
    (ctx : CredCtx) (sid : String)
    (hs : lookupA st.session_cache a = some sid) :
    get_or_create_mcp_session env st a ctx = (st, [], .ok sid) := by
  simp [get_or_create_mcp_session, hs]

theorem session_miss_ok (env : GwEnv) (st : BridgeState) (a : String)
    (ctx : CredCtx) (body : Body) (headers : Headers)
    (hs : lookupA st.session_cache a = none)
    (hresp : env.mcp (initCall ctx) = .ok (body, headers))
    (hcond : (truthy (sessionIdFromHeaders headers) && !hasErrorKey body) = true) :
    get_or_create_mcp_session env st a ctx =
      ({ st with session_cache :=
           insertA st.session_cache a ((sessionIdFromHeaders headers).getD "") },
       [Event.mcpPost (initCall ctx)], .ok ((sessionIdFromHeaders headers).getD "")) := by
  simp only [initCall] at hresp
  simp only [get_or_create_mcp_session, hs, make_mcp_request, sessionHeaderOf_none,
    hresp, hcond, initCall]
  simp

theorem session_miss_fail (env : GwEnv) (st : BridgeState) (a : String)
    (ctx : CredCtx) (body : Body) (headers : Headers)
    (hs : lookupA st.session_cache a = none)
    (hresp : env.mcp (initCall ctx) = .ok (body, headers))
    (hcond : (truthy (sessionIdFromHeaders headers) && !hasErrorKey body) = false) :
    get_or_create_mcp_session env st a ctx =
      (st, [Event.mcpPost (initCall ctx)],
       .error "Failed to initialize MCP session") := by
  simp only [initCall] at hresp
  simp only [get_or_create_mcp_session, hs, make_mcp_request, sessionHeaderOf_none,
    hresp, hcond, initCall]
  simp

theorem session_miss_exn (env : GwEnv) (st : BridgeState) (a : String)
    (ctx : CredCtx) (m : String)
    (hs : lookupA st.session_cache a = none)
    (hresp : env.mcp (initCall ctx) = .exn m) :
    get_or_create_mcp_session env st a ctx =
      (st, [Event.mcpPost (initCall ctx)], .error m) := by
  simp only [initCall] at hresp
  simp only [get_or_create_mcp_session, hs, make_mcp_request, sessionHeaderOf_none,
    hresp, initCall]

theorem global_session_hit (env : GwEnv) (st : BridgeState)
    (hs : truthy st.global_session_id = true) :
    get_or_create_global_mcp_session env st =
      (st, [], .ok (st.global_session_id.getD "")) := by
  simp [get_or_create_global_mcp_session, hs]

theorem global_session_miss_ok (env : GwEnv) (st : BridgeState)
    (body : Body) (headers : Headers)
    (hs : truthy st.global_session_id = false)
    (hresp : env.mcp initCallGlobal = .ok (body, headers))
    (hcond : (truthy (sessionIdFromHeaders headers) && !hasErrorKey body) = true) :
    get_or_create_global_mcp_session env st =
      ({ st with global_session_id := some ((sessionIdFromHeaders headers).getD "") },
       [Event.mcpPost initCallGlobal], .ok ((sessionIdFromHeaders headers).getD "")) := by
  simp only [initCallGlobal] at hresp
  simp only [get_or_create_global_mcp_session, hs, make_mcp_request, sessionHeaderOf_none,
    hresp, hcond, initCallGlobal]
  simp

theorem get_credentials_stale_err (env : GwEnv) (st : BridgeState) (a : String)
    (c : Creds) (m : String) (hc : lookupA st.credential_cache a = some c)
    (hstale : ¬ env.nowSec + 300 < c.expiration) (hsts : env.sts a = .exn m) :
    get_credentials env st a =
      (st, [Event.assumeRole a ("Bridge-" ++ a) 3600], .error m) := by
  simp [get_credentials, hc, hstale, hsts]

theorem get_credentials_shape (env : GwEnv) (st : BridgeState) (a : String)
    (st' : BridgeState) (evs : List Event) (r : Except String Creds)
    (h : get_credentials env st a = (st', evs, r)) :
    (evs = [] ∧ st' = st ∧
      ∃ c, r = .ok c ∧ lookupA st.credential_cache a = some c ∧
        env.nowSec + 300 < c.expiration) ∨
    (evs = [Event.assumeRole a ("Bridge-" ++ a) 3600] ∧
      ((∃ rr, env.sts a = .ok rr ∧ r = .ok (credsOfResp rr) ∧
          st' = { st with credential_cache :=
                    insertA st.credential_cache a (credsOfResp rr) }) ∨
       (∃ m, env.sts a = .exn m ∧ r = .error m ∧ st' = st))) := by
  cases hc : lookupA st.credential_cache a with
  | some c =>
    by_cases hf : env.nowSec + 300 < c.expiration
    · rw [get_credentials_hit env st a c hc hf] at h
      simp only [Prod.mk.injEq] at h
      exact Or.inl ⟨h.2.1.symm, h.1.symm, c, h.2.2.symm, rfl, hf⟩

    · cases hsts : env.sts a with
      | ok rr =>
        rw [get_credentials_stale_ok env st a c rr hc hf hsts] at h
        simp only [Prod.mk.injEq] at h
        exact Or.inr ⟨h.2.1.symm, Or.inl ⟨rr, rfl, h.2.2.symm, h.1.symm⟩⟩
      | exn m =>
        rw [get_credentials_stale_err env st a c m hc hf hsts] at h
        simp only [Prod.mk.injEq] at h
        exact Or.inr ⟨h.2.1.symm, Or.inr ⟨m, rfl, h.2.2.symm, h.1.symm⟩⟩
  | none =>
    cases hsts : env.sts a with
    | ok rr =>
      rw [get_credentials_miss_ok env st a rr hc hsts] at h
      simp only [Prod.mk.injEq] at h
      exact Or.inr ⟨h.2.1.symm, Or.inl ⟨rr, rfl, h.2.2.symm, h.1.symm⟩⟩
    | exn m =>
      rw [get_credentials_miss_err env st a m hc hsts] at h
      simp only [Prod.mk.injEq] at h
      exact Or.inr ⟨h.2.1.symm, Or.inr ⟨m, rfl, h.2.2.symm, h.1.symm⟩⟩

theorem truthy_getD_ne {o : Option String} (h : truthy o = true) :
    o.getD "" ≠ "" := by
  cases o with
  | none => simp [truthy] at h
  | some s =>
    simp only [truthy, Bool.not_eq_true'] at h
    simp only [Option.getD_some]
    intro hs
    rw [hs] at h
    exact absurd h (by decide)

theorem global_session_miss_fail (env : GwEnv) (st : BridgeState)
    (body : Body) (headers : Headers)
    (hs : truthy st.global_session_id = false)
    (hresp : env.mcp initCallGlobal = .ok (body, headers))
    (hcond : (truthy (sessionIdFromHeaders headers) && !hasErrorKey body) = false) :
    get_or_create_global_mcp_session env st =
      (st, [Event.mcpPost initCallGlobal],
       .error "Failed to initialize global MCP session") := by
  simp only [initCallGlobal] at hresp
  simp only [get_or_create_global_mcp_session, hs, make_mcp_request, sessionHeaderOf_none,
    hresp, hcond, initCallGlobal]
  simp

theorem global_session_miss_exn (env : GwEnv) (st : BridgeState) (m : String)
    (hs : truthy st.global_session_id = false)
    (hresp : env.mcp initCallGlobal = .exn m) :
    get_or_create_global_mcp_session env st =
      (st, [Event.mcpPost initCallGlobal], .error m) := by
  simp only [initCallGlobal] at hresp
  simp only [get_or_create_global_mcp_session, hs, make_mcp_request, sessionHeaderOf_none,
    hresp, initCallGlobal]
  simp

theorem session_shape (env : GwEnv) (st : BridgeState) (a : String)
    (ctx : CredCtx) (st' : BridgeState) (evs : List Event)
    (r : Except String String)
    (h : get_or_create_mcp_session env st a ctx = (st', evs, r)) :
    (evs = [] ∧ st' = st ∧
      ∃ sid, r = .ok sid ∧ lookupA st.session_cache a = some sid) ∨
    (lookupA st.session_cache a = none ∧ evs = [Event.mcpPost (initCall ctx)] ∧
      ((∃ sid, r = .ok sid ∧ sid ≠ "" ∧
          st' = { st with session_cache := insertA st.session_cache a sid }) ∨
       (∃ m, r = .error m ∧ st' = st))) := by
  cases hsc : lookupA st.session_cache a with
  | some sid =>
    rw [session_hit env st a ctx sid hsc] at h
    simp only [Prod.mk.injEq] at h
    exact Or.inl ⟨h.2.1.symm, h.1.symm, sid, h.2.2.symm, rfl⟩
  | none =>
    cases hresp : env.mcp (initCall ctx) with
    | ok bh =>
      rcases bh with ⟨body, headers⟩
      cases hcond : (truthy (sessionIdFromHeaders headers) && !hasErrorKey body) with
      | true =>
        rw [session_miss_ok env st a ctx body headers hsc hresp hcond] at h
        simp only [Prod.mk.injEq] at h
        refine Or.inr ⟨rfl, h.2.1.symm, Or.inl ⟨(sessionIdFromHeaders headers).getD "",
          h.2.2.symm, ?_, h.1.symm⟩⟩
        exact truthy_getD_ne (Bool.and_elim_left hcond)
      | false =>
        rw [session_miss_fail env st a ctx body headers hsc hresp hcond] at h
        simp only [Prod.mk.injEq] at h
        exact Or.inr ⟨rfl, h.2.1.symm,
          Or.inr ⟨"Failed to initialize MCP session", h.2.2.symm, h.1.symm⟩⟩
    | exn m =>
      rw [session_miss_exn env st a ctx m hsc hresp] at h
      simp only [Prod.mk.injEq] at h
      exact Or.inr ⟨rfl, h.2.1.symm, Or.inr ⟨m, h.2.2.symm, h.1.symm⟩⟩

theorem global_session_shape (env : GwEnv) (st : BridgeState)
    (st' : BridgeState) (evs : List Event) (r : Except String String)
    (h : get_or_create_global_mcp_session env st = (st', evs, r)) :
    (evs = [] ∧ st' = st ∧
      ∃ sid, r = .ok sid ∧ st.global_session_id = some sid ∧ sid ≠ "") ∨
    (evs = [Event.mcpPost initCallGlobal] ∧
      ((∃ sid, r = .ok sid ∧ sid ≠ "" ∧
          st' = { st with global_session_id := some sid }) ∨
       (∃ m, r = .error m ∧ st' = st))) := by
  cases hg : truthy st.global_session_id with
  | true =>
    rw [global_session_hit env st hg] at h
    simp only [Prod.mk.injEq] at h
    refine Or.inl ⟨h.2.1.symm, h.1.symm, st.global_session_id.getD "", h.2.2.symm, ?_, truthy_getD_ne hg⟩
    cases ho : st.global_session_id with
    | none => rw [ho] at hg; simp [truthy] at hg
    | some s => simp [ho]
  | false =>
    cases hresp : env.mcp initCallGlobal with
    | ok bh =>
      rcases bh with ⟨body, headers⟩
      cases hcond : (truthy (sessionIdFromHeaders headers) && !hasErrorKey body) with
      | true =>
        rw [global_session_miss_ok env st body headers hg hresp hcond] at h
        simp only [Prod.mk.injEq] at h
        exact Or.inr ⟨h.2.1.symm, Or.inl ⟨(sessionIdFromHeaders headers).getD "",
          h.2.2.symm, truthy_getD_ne (Bool.and_elim_left hcond), h.1.symm⟩⟩
      | false =>
        rw [global_session_miss_fail env st body headers hg hresp hcond] at h
        simp only [Prod.mk.injEq] at h
        exact Or.inr ⟨h.2.1.symm,
          Or.inr ⟨"Failed to initialize global MCP session", h.2.2.symm, h.1.symm⟩⟩
    | exn m =>
      rw [global_session_miss_exn env st m hg hresp] at h
      simp only [Prod.mk.injEq] at h
      exact Or.inr ⟨h.2.1.symm, Or.inr ⟨m, h.2.2.symm, h.1.symm⟩⟩

theorem make_mcp_request_shape (env : GwEnv) (method : String)
    (params : Params) (ctx : CredCtx) (session_id : Option String)
    (evs : List Event) (r : Except String (Body × Headers))
    (h : make_mcp_request env method params ctx session_id = (evs, r)) :
    evs = [Event.mcpPost ⟨method, params, ctx, sessionHeaderOf session_id⟩] ∧
    ((∃ bh, env.mcp ⟨method, params, ctx, sessionHeaderOf session_id⟩ = .ok bh ∧ r = .ok bh) ∨
     (∃ m, env.mcp ⟨method, params, ctx, sessionHeaderOf session_id⟩ = .exn m ∧ r = .error m)) := by
  unfold make_mcp_request at h
  cases hresp : env.mcp ⟨method, params, ctx, sessionHeaderOf session_id⟩ with
  | ok bh =>
    simp only [hresp, Prod.mk.injEq] at h
    exact ⟨h.1.symm, Or.inl ⟨bh, rfl, h.2.symm⟩⟩
  | exn m =>
    simp only [hresp, Prod.mk.injEq] at h
    exact ⟨h.1.symm, Or.inr ⟨m, rfl, h.2.symm⟩⟩

theorem sessionHeaderOf_some_ne {sid : String} (h : sid ≠ "") :
    sessionHeaderOf (some sid) = some sid := by
  have : sid.isEmpty = false := by
    cases he : sid.isEmpty with
    | false => rfl
    | true =>
      exact absurd ((String.isEmpty_iff sid).mp he) h
  simp [sessionHeaderOf, truthy, this]

theorem call_aws_mcp_unfold (env : GwEnv) (st : BridgeState) (t : String)
    (args : Json) (a region : String) (st' : BridgeState) (evs : List Event)
    (r : Except String Body)
    (h : call_aws_mcp env st t args a region = (st', evs, r)) :
    ∃ st1 evs1 rc, get_credentials env st a = (st1, evs1, rc) ∧
      ((∃ m, rc = .error m ∧ st' = st1 ∧ evs = evs1 ∧ r = .error m) ∨
       (∃ c, rc = .ok c ∧
         ∃ st2 evs2 rs,
           get_or_create_mcp_session env st1 a (CredCtx.assumed c region) =
             (st2, evs2, rs) ∧
           ((∃ m, rs = .error m ∧ st' = st2 ∧ evs = evs1 ++ evs2 ∧ r = .error m) ∨
            (∃ sid, rs = .ok sid ∧
              ∃ evs3 rr,
                make_mcp_request env "tools/call" (.callParams t args)
                    (CredCtx.assumed c region) (some sid) = (evs3, rr) ∧
                st' = st2 ∧ evs = evs1 ++ evs2 ++ evs3 ∧
                ((∃ m, rr = .error m ∧ r = .error m) ∨
                 (∃ body headers, rr = .ok (body, headers) ∧ r = .ok body)))))) := by
  unfold call_aws_mcp at h
  rcases hgc : get_credentials env st a with ⟨st1, evs1, rc⟩
  rw [hgc] at h
  refine ⟨st1, evs1, rc, rfl, ?_⟩
  cases rc with
  | error m =>
    simp only [Prod.mk.injEq] at h
    exact Or.inl ⟨m, rfl, h.1.symm, h.2.1.symm, h.2.2.symm⟩
  | ok c =>
    rcases hs : get_or_create_mcp_session env st1 a (CredCtx.assumed c region)
      with ⟨st2, evs2, rs⟩
    simp only [hs] at h
    refine Or.inr ⟨c, rfl, st2, evs2, rs, hs, ?_⟩
    cases rs with
    | error m =>
      simp only [Prod.mk.injEq] at h
      exact Or.inl ⟨m, rfl, h.1.symm, h.2.1.symm, h.2.2.symm⟩
    | ok sid =>
      rcases hm : make_mcp_request env "tools/call" (.callParams t args)
          (CredCtx.assumed c region) (some sid) with ⟨evs3, rr⟩
      simp only [hm] at h
      refine Or.inr ⟨sid, rfl, evs3, rr, hm, ?_⟩
      cases rr with
      | error m =>
        simp only [Prod.mk.injEq] at h
        exact ⟨h.1.symm, h.2.1.symm, Or.inl ⟨m, rfl, h.2.2.symm⟩⟩
      | ok bh =>
        rcases bh with ⟨body, headers⟩
        simp only [Prod.mk.injEq] at h
        exact ⟨h.1.symm, h.2.1.symm, Or.inr ⟨body, headers, rfl, h.2.2.symm⟩⟩

theorem call_aws_mcp_global_unfold (env : GwEnv) (st : BridgeState)
    (t : String) (args : Json) (st' : BridgeState) (evs : List Event)
    (r : Except String Body)
    (h : call_aws_mcp_global env st t args = (st', evs, r)) :
    ∃ st1 evs1 rs, get_or_create_global_mcp_session env st = (st1, evs1, rs) ∧
      ((∃ m, rs = .error m ∧ st' = st1 ∧ evs = evs1 ∧ r = .error m) ∨
       (∃ sid, rs = .ok sid ∧
         ∃ evs2 rr,
           make_mcp_request env "tools/call" (.callParams t args)
               CredCtx.lambdaOwn (some sid) = (evs2, rr) ∧
           st' = st1 ∧ evs = evs1 ++ evs2 ∧
           ((∃ m, rr = .error m ∧ r = .error m) ∨
            (∃ body headers, rr = .ok (body, headers) ∧ r = .ok body)))) := by
  unfold call_aws_mcp_global at h
  rcases hgs : get_or_create_global_mcp_session env st with ⟨st1, evs1, rs⟩
  rw [hgs] at h
  refine ⟨st1, evs1, rs, rfl, ?_⟩
  cases rs with
  | error m =>
    simp only [Prod.mk.injEq] at h
    exact Or.inl ⟨m, rfl, h.1.symm, h.2.1.symm, h.2.2.symm⟩
  | ok sid =>
    rcases hm : make_mcp_request env "tools/call" (.callParams t args)
        CredCtx.lambdaOwn (some sid) with ⟨evs2, rr⟩
    simp only [hm] at h
    refine Or.inr ⟨sid, rfl, evs2, rr, hm, ?_⟩
    cases rr with
    | error m =>
      simp only [Prod.mk.injEq] at h
      exact ⟨h.1.symm, h.2.1.symm, Or.inl ⟨m, rfl, h.2.2.symm⟩⟩
    | ok bh =>
      rcases bh with ⟨body, headers⟩
      simp only [Prod.mk.injEq] at h
      exact ⟨h.1.symm, h.2.1.symm, Or.inr ⟨body, headers, rfl, h.2.2.symm⟩⟩

end Handler

/-! Concrete fixtures used by the claim witnesses. -/

/-- Example STS response used in witnesses (expires at t = 4600). -/
def stsRespW : StsResp := ⟨"AKIAEXAMPLE", "secretW", "tokenW", 4600⟩

/-- Credential record produced from stsRespW. -/
def credsW : Creds := ⟨"AKIAEXAMPLE", "secretW", "tokenW", 4600⟩

/-- Witness environment at t = 1000 whose MCP endpoint is unreachable. -/
def envW1 : GwEnv := ⟨1000, fun _ => .ok stsRespW, fun _ => .exn "network unavailable"⟩

/-- Witness environment at t = 1200 (within the 5-minute buffer of credsW). -/
def envW2 : GwEnv := ⟨1200, fun _ => .ok stsRespW, fun _ => .exn "network unavailable"⟩

/-- Empty warm-start state: no credentials, no sessions. -/
def st0 : BridgeState := ⟨[], [], none⟩

/-- State after one credential refresh for account 222222222222. -/
def stW1 : BridgeState := ⟨[("222222222222", credsW)], [], none⟩

/-- C10: in AccountManager, a cached expiration timestamp with no timezone
information is interpreted as UTC when deciding staleness: _is_expired
returns true exactly when the current UTC time plus the 5-minute refresh
buffer reaches or passes the expiration read as UTC, whether or not the
stored timestamp is timezone-aware. -/
theorem C10_is_expired_reads_naive_as_utc (nowSec : Int) (e : PyDatetime) :
    AccountManager._is_expired nowSec e =
      decide (nowSec + 300 ≥ specExpirationReadAsUtc e) := by
  cases htz : e.tz with
  | none =>
    simp [AccountManager._is_expired, specExpirationReadAsUtc, instantOf, htz]
  | some off =>
    simp [AccountManager._is_expired, specExpirationReadAsUtc, instantOf, htz]

/-- C2: get_credentials returns the cached record exactly when a cached
record exists and now + 5 minutes is strictly before its expiration;
otherwise it performs one role-assumption call with a 3600-second session
duration, stores the new record keyed by the account, and returns it.  A
returned credential always has more than 5 minutes of validity (given that
fresh STS credentials last the full 3600-second session), and a second
request for the same account within the buffer window performs no further
role assumption.  Covers both the Lambda bridge and the AccountManager
implementation of the algorithm. -/
theorem C2_credential_cache_policy :
    (∀ (env : GwEnv) (st : BridgeState) (a : String) (c : Creds),
       lookupA st.credential_cache a = some c →
       env.nowSec + 300 < c.expiration →
       Handler.get_credentials env st a = (st, [], .ok c)) ∧
    (∀ (env : GwEnv) (st : BridgeState) (a : String) (r : StsResp),
       (lookupA st.credential_cache a = none ∨
        ∃ c, lookupA st.credential_cache a = some c ∧
          ¬ env.nowSec + 300 < c.expiration) →
       env.sts a = .ok r →
       Handler.get_credentials env st a =
         ({ st with credential_cache :=
              insertA st.credential_cache a (Handler.credsOfResp r) },
          [Event.assumeRole a ("Bridge-" ++ a) 3600],
          .ok (Handler.credsOfResp r))) ∧
    (∀ (env : GwEnv) (st st' : BridgeState) (a : String) (evs : List Event) (c : Creds),
       (∀ r, env.sts a = NetResult.ok r → env.nowSec + 3600 ≤ r.expiration) →
       Handler.get_credentials env st a = (st', evs, .ok c) →
       env.nowSec + 300 < c.expiration) ∧
    (∀ (env1 env2 : GwEnv) (st st1 : BridgeState) (a : String)
       (evs1 : List Event) (c1 : Creds),
       Handler.get_credentials env1 st a = (st1, evs1, .ok c1) →
       env2.nowSec + 300 < c1.expiration →
       Handler.get_credentials env2 st1 a = (st1, [], .ok c1) ∧
       evs1.countP isAssumeEvent ≤ 1) ∧
    (∀ (env : AccountManager.AmEnv) (cache : List (String × AccountManager.AMCreds))
       (a : String) (c : AccountManager.AMCreds),
       lookupA cache a = some c →
       AccountManager._is_expired env.nowSec c.expiration = false →
       AccountManager.get_credentials env cache a = (cache, [], .ok c)) ∧
    (∀ (env : AccountManager.AmEnv) (cache : List (String × AccountManager.AMCreds))
       (a : String) (r : AccountManager.AMStsResp),
       (lookupA cache a = none ∨
        ∃ c, lookupA cache a = some c ∧
          AccountManager._is_expired env.nowSec c.expiration = true) →
       env.sts a = .ok r →
       AccountManager.get_credentials env cache a =
         (insertA cache a (AccountManager.amCredsOfResp r a),
          [Event.assumeRole a ("CentralOps-" ++ a) 3600],
          .ok (AccountManager.amCredsOfResp r a))) := by
  refine ⟨?_, ?_, ?_, ?_, ?_, ?_⟩
  · intro env st a c hc hf
    exact Handler.get_credentials_hit env st a c hc hf
  · intro env st a r hmiss hsts
    rcases hmiss with hnone | ⟨c, hc, hstale⟩
    · exact Handler.get_credentials_miss_ok env st a r hnone hsts
    · exact Handler.get_credentials_stale_ok env st a c r hc hstale hsts
  · intro env st st' a evs c hsts h
    rcases Handler.get_credentials_shape env st a st' evs _ h with
      ⟨_, _, c', hok, _, hf⟩ | ⟨_, ⟨rr, hr, hok, _⟩ | ⟨m, _, hbad, _⟩⟩
    · cases hok
      exact hf
    · cases hok
      have := hsts rr hr
      simp only [Handler.credsOfResp]
      omega
    · cases hbad
  · intro env1 env2 st st1 a evs1 c1 h1 hbuf
    rcases Handler.get_credentials_shape env1 st a st1 evs1 _ h1 with
      ⟨hevs, hst, c', hok, hlk, _⟩ | ⟨hevs, ⟨rr, _, hok, hst⟩ | ⟨m, _, hbad, _⟩⟩
    · cases hok
      subst hst
      refine ⟨Handler.get_credentials_hit env2 st1 a c1 hlk hbuf, ?_⟩
      simp [hevs]
    · cases hok
      subst hst
      have hlk : lookupA
          ({ st with credential_cache :=
              insertA st.credential_cache a (Handler.credsOfResp rr) } :
            BridgeState).credential_cache a = some (Handler.credsOfResp rr) :=
        lookupA_insertA_self st.credential_cache a (Handler.credsOfResp rr)
      refine ⟨Handler.get_credentials_hit env2 _ a _ hlk hbuf, ?_⟩
      simp [hevs, List.countP_cons, isAssumeEvent]
    · cases hbad
  · intro env cache a c hc hf
    exact AccountManager.am_hit env cache a c hc hf
  · intro env cache a r hmiss hsts
    rcases hmiss with hnone | ⟨c, hc, hstale⟩
    · exact AccountManager.am_miss_ok env cache a r hnone hsts
    · exact AccountManager.am_stale_ok env cache a c r hc hstale hsts

/-- C2 witness: for account 222222222222, a refresh at t = 1000 followed by
a request at t = 1200 (within the 5-minute buffer) returns the cached record
with no event, and the refresh performed at most one role assumption. -/
theorem C2_credential_cache_policy_witness :
    Handler.get_credentials envW2 stW1 "222222222222" = (stW1, [], .ok credsW) ∧
    [Event.assumeRole "222222222222" ("Bridge-" ++ "222222222222") 3600].countP
      isAssumeEvent ≤ 1 := by
  have h1 : Handler.get_credentials envW1 st0 "222222222222" =
      (stW1, [Event.assumeRole "222222222222" ("Bridge-" ++ "222222222222") 3600],
       .ok credsW) := rfl
  have h2 : envW2.nowSec + 300 < credsW.expiration := by decide
  exact C2_credential_cache_policy.2.2.2.1 envW1 envW2 st0 stW1 "222222222222"
    _ credsW h1 h2

/-- C8: a credential refresh replaces the cache entry wholesale: the
post-state cache is exactly the old mapping with the entry for the account
replaced by a record constructed from the STS response alone; the entry
for every other account is untouched.  Covers both the Lambda bridge and
the AccountManager implementation. -/
theorem C8_refresh_replaces_wholesale :
    (∀ (env : GwEnv) (st : BridgeState) (a : String) (r : StsResp),
       (lookupA st.credential_cache a = none ∨
        ∃ c0, lookupA st.credential_cache a = some c0 ∧
          ¬ env.nowSec + 300 < c0.expiration) →
       env.sts a = .ok r →
       (Handler.get_credentials env st a).1.credential_cache =
         insertA st.credential_cache a (Handler.credsOfResp r) ∧
       lookupA (Handler.get_credentials env st a).1.credential_cache a =
         some (Handler.credsOfResp r) ∧
       (∀ b, b ≠ a →
         lookupA (Handler.get_credentials env st a).1.credential_cache b =
           lookupA st.credential_cache b)) ∧
    (∀ (env : AccountManager.AmEnv) (cache : List (String × AccountManager.AMCreds))
       (a : String) (r : AccountManager.AMStsResp),
       (lookupA cache a = none ∨
        ∃ c0, lookupA cache a = some c0 ∧
          AccountManager._is_expired env.nowSec c0.expiration = true) →
       env.sts a = .ok r →
       (AccountManager.get_credentials env cache a).1 =
         insertA cache a (AccountManager.amCredsOfResp r a) ∧
       lookupA (AccountManager.get_credentials env cache a).1 a =
         some (AccountManager.amCredsOfResp r a) ∧
       (∀ b, b ≠ a →
         lookupA (AccountManager.get_credentials env cache a).1 b =
           lookupA cache b)) := by
  constructor
  · intro env st a r hmiss hsts
    have heq : Handler.get_credentials env st a =
        ({ st with credential_cache :=
             insertA st.credential_cache a (Handler.credsOfResp r) },
         [Event.assumeRole a ("Bridge-" ++ a) 3600],
         .ok (Handler.credsOfResp r)) := by
      rcases hmiss with hnone | ⟨c0, hc0, hstale⟩
      · exact Handler.get_credentials_miss_ok env st a r hnone hsts
      · exact Handler.get_credentials_stale_ok env st a c0 r hc0 hstale hsts
    rw [heq]
    exact ⟨rfl, lookupA_insertA_self _ _ _, fun b hb => lookupA_insertA_ne _ _ _ _ hb⟩
  · intro env cache a r hmiss hsts
    have heq : AccountManager.get_credentials env cache a =
        (insertA cache a (AccountManager.amCredsOfResp r a),
         [Event.assumeRole a ("CentralOps-" ++ a) 3600],
         .ok (AccountManager.amCredsOfResp r a)) := by
      rcases hmiss with hnone | ⟨c0, hc0, hstale⟩
      · exact AccountManager.am_miss_ok env cache a r hnone hsts
      · exact AccountManager.am_stale_ok env cache a c0 r hc0 hstale hsts
    rw [heq]
    exact ⟨rfl, lookupA_insertA_self _ _ _, fun b hb => lookupA_insertA_ne _ _ _ _ hb⟩

/-- C8 witness: refreshing account 222222222222 from the empty cache yields
exactly the one-entry cache holding the record built from the STS response,
and leaves the (absent) entry of account 333333333333 untouched. -/
theorem C8_refresh_replaces_wholesale_witness :
    (Handler.get_credentials envW1 st0 "222222222222").1.credential_cache =
      insertA st0.credential_cache "222222222222" (Handler.credsOfResp stsRespW) ∧
    lookupA (Handler.get_credentials envW1 st0 "222222222222").1.credential_cache
      "222222222222" = some (Handler.credsOfResp stsRespW) ∧
    lookupA (Handler.get_credentials envW1 st0 "222222222222").1.credential_cache
      "333333333333" = lookupA st0.credential_cache "333333333333" := by
  have h := C8_refresh_replaces_wholesale.1 envW1 st0 "222222222222" stsRespW
    (Or.inl rfl) rfl
  exact ⟨h.1, h.2.1, h.2.2 "333333333333" (by decide)⟩

theorem countP_assume_mcpPost (c : McpCall) :
    isAssumeEvent (Event.mcpPost c) = false := rfl

theorem call_aws_mcp_no_assume_on_hit (env : GwEnv) (st : BridgeState)
    (t : String) (args : Json) (a region : String) (c : Creds)
    (hc : lookupA st.credential_cache a = some c)
    (hf : env.nowSec + 300 < c.expiration) :
    (Handler.call_aws_mcp env st t args a region).2.1.countP isAssumeEvent = 0 := by
  rcases h : Handler.call_aws_mcp env st t args a region with ⟨st', evs, r⟩
  show evs.countP isAssumeEvent = 0
  rcases Handler.call_aws_mcp_unfold env st t args a region st' evs r h with
    ⟨st1, evs1, rc, hgc, hbr⟩
  have hhit := (Handler.get_credentials_hit env st a c hc hf).symm.trans hgc
  simp only [Prod.mk.injEq] at hhit
  obtain ⟨hst1, hevs1, hrc⟩ := hhit
  subst hst1
  rcases hbr with ⟨m, hbad, _⟩ | ⟨c', hok, st2, evs2, rs, hs, hbr2⟩
  · rw [← hrc] at hbad
    cases hbad
  · rcases Handler.session_shape env st a (CredCtx.assumed c' region) st2 evs2 rs hs with
      ⟨hevs2, _, _⟩ | ⟨_, hevs2, _⟩
    · rcases hbr2 with ⟨m, _, _, hevs, _⟩ | ⟨sid, _, evs3, rr, hm, _, hevs, _⟩
      · subst hevs
        simp [← hevs1, hevs2]
      · rcases Handler.make_mcp_request_shape env _ _ _ _ evs3 rr hm with ⟨hevs3, _⟩
        subst hevs
        simp [← hevs1, hevs2, hevs3, isAssumeEvent]
    · rcases hbr2 with ⟨m, _, _, hevs, _⟩ | ⟨sid, _, evs3, rr, hm, _, hevs, _⟩
      · subst hevs
        simp [← hevs1, hevs2, isAssumeEvent]
      · rcases Handler.make_mcp_request_shape env _ _ _ _ evs3 rr hm with ⟨hevs3, _⟩
        subst hevs
        simp [← hevs1, hevs2, hevs3, isAssumeEvent]

/-- Bridge state after a credential refresh for account a stored the record
built from STS response r (used to phrase C9). -/
def stAfterRefresh (st : BridgeState) (a : String) (r : StsResp) : BridgeState :=
  { st with credential_cache := insertA st.credential_cache a (Handler.credsOfResp r) }

/-- C9: in call_aws_mcp, credentials are fetched and cached before session
establishment; when the initialize handshake then fails, the invocation
surfaces the session error, the credential cache keeps the freshly assumed
record for that account, the session cache is unchanged (still empty for
that account), and a later invocation for the same account within the
buffer window performs no new role assumption. -/
theorem C9_credentials_survive_session_failure (env : GwEnv) (st : BridgeState)
    (t : String) (args : Json) (a region : String) (r : StsResp)
    (body : Body) (headers : Headers)
    (hcred : lookupA st.credential_cache a = none)
    (hsess : lookupA st.session_cache a = none)
    (hsts : env.sts a = .ok r)
    (hresp : env.mcp
      (Handler.initCall (CredCtx.assumed (Handler.credsOfResp r) region)) =
        .ok (body, headers))
    (hcond : (truthy (Handler.sessionIdFromHeaders headers) &&
      !hasErrorKey body) = false) :
    Handler.call_aws_mcp env st t args a region =
      (stAfterRefresh st a r,
       [Event.assumeRole a ("Bridge-" ++ a) 3600,
        Event.mcpPost (Handler.initCall
          (CredCtx.assumed (Handler.credsOfResp r) region))],
       .error "Failed to initialize MCP session") ∧
    lookupA (stAfterRefresh st a r).credential_cache a =
      some (Handler.credsOfResp r) ∧
    (stAfterRefresh st a r).session_cache = st.session_cache ∧
    (∀ (env2 : GwEnv) (t2 : String) (args2 : Json) (region2 : String),
       env2.nowSec + 300 < r.expiration →
       (Handler.call_aws_mcp env2 (stAfterRefresh st a r)
         t2 args2 a region2).2.1.countP isAssumeEvent = 0) := by
  have hgc := Handler.get_credentials_miss_ok env st a r hcred hsts
  have hsess' : lookupA (stAfterRefresh st a r).session_cache a = none := hsess
  have hs := Handler.session_miss_fail env (stAfterRefresh st a r)
    a (CredCtx.assumed (Handler.credsOfResp r) region) body headers hsess' hresp hcond
  refine ⟨?_, lookupA_insertA_self _ _ _, rfl, ?_⟩
  · unfold Handler.call_aws_mcp
    rw [hgc]
    simp only [stAfterRefresh] at hs
    simp only [hs, stAfterRefresh]
    rfl
  · intro env2 t2 args2 region2 hbuf
    exact call_aws_mcp_no_assume_on_hit env2 _ t2 args2 a region2
      (Handler.credsOfResp r) (lookupA_insertA_self _ _ _) hbuf

/-- Witness environment whose MCP endpoint answers every POST with a body
carrying an error field and no session header. -/
def envW3 : GwEnv :=
  ⟨1000, fun _ => .ok stsRespW, fun _ => .ok ([("error", Json.str "boom")], [])⟩

/-- C9 witness: concrete run in envW3 (STS succeeds, initialize fails):
the invocation errors, the credential cache keeps the fresh record, the
session cache stays empty, and a follow-up call at t = 1200 performs no
role assumption. -/
theorem C9_credentials_survive_session_failure_witness :
    Handler.call_aws_mcp envW3 st0 "aws___list_regions" (Json.obj [])
      "222222222222" "us-east-1" =
      (stAfterRefresh st0 "222222222222" stsRespW,
       [Event.assumeRole "222222222222" ("Bridge-" ++ "222222222222") 3600,
        Event.mcpPost (Handler.initCall
          (CredCtx.assumed (Handler.credsOfResp stsRespW) "us-east-1"))],
       .error "Failed to initialize MCP session") ∧
    lookupA (stAfterRefresh st0 "222222222222" stsRespW).credential_cache
      "222222222222" = some (Handler.credsOfResp stsRespW) ∧
    (stAfterRefresh st0 "222222222222" stsRespW).session_cache = st0.session_cache ∧
    (Handler.call_aws_mcp envW2 (stAfterRefresh st0 "222222222222" stsRespW)
      "aws___list_regions" (Json.obj []) "222222222222"
      "us-east-1").2.1.countP isAssumeEvent = 0 := by
  have h := C9_credentials_survive_session_failure envW3 st0 "aws___list_regions"
    (Json.obj []) "222222222222" "us-east-1" stsRespW
    [("error", Json.str "boom")] [] rfl rfl rfl rfl rfl
  exact ⟨h.1, h.2.1, h.2.2.1,
    h.2.2.2 envW2 "aws___list_regions" (Json.obj []) "us-east-1" (by decide)⟩

theorem session_miss_events (env : GwEnv) (st : BridgeState) (a : String)
    (ctx : CredCtx) (hs : lookupA st.session_cache a = none) :
    (Handler.get_or_create_mcp_session env st a ctx).2.1 =
      [Event.mcpPost (Handler.initCall ctx)] := by
  rcases h : Handler.get_or_create_mcp_session env st a ctx with ⟨st', evs, r⟩
  show evs = _
  rcases Handler.session_shape env st a ctx st' evs r h with
    ⟨_, _, sid, _, hlk⟩ | ⟨_, hevs, _⟩
  · rw [hs] at hlk
    cases hlk
  · exact hevs

theorem global_session_miss_events (env : GwEnv) (st : BridgeState)
    (hs : truthy st.global_session_id = false) :
    (Handler.get_or_create_global_mcp_session env st).2.1 =
      [Event.mcpPost Handler.initCallGlobal] := by
  rcases h : Handler.get_or_create_global_mcp_session env st with ⟨st', evs, r⟩
  show evs = _
  rcases Handler.global_session_shape env st st' evs r h with
    ⟨_, _, sid, _, hlk, hne⟩ | ⟨hevs, _⟩
  · rw [hlk] at hs
    simp only [truthy, Bool.not_eq_false'] at hs
    exact absurd ((String.isEmpty_iff sid).mp hs) hne
  · exact hevs

theorem sessionIdFromHeaders_none (headers : Headers)
    (h : ∀ p ∈ headers, lowerStr p.1 ≠ "mcp-session-id") :
    Handler.sessionIdFromHeaders headers = none := by
  have hlow : lowerStr "Mcp-Session-Id" = "mcp-session-id" := by decide
  have hlow2 : lowerStr "mcp-session-id" = "mcp-session-id" := by decide
  have h1 : lookupA headers "Mcp-Session-Id" = none := by
    cases hh : lookupA headers "Mcp-Session-Id" with
    | none => rfl
    | some v => exact absurd hlow (h _ (lookupA_mem hh))
  have h2 : lookupA headers "mcp-session-id" = none := by
    cases hh : lookupA headers "mcp-session-id" with
    | none => rfl
    | some v => exact absurd hlow2 (h _ (lookupA_mem hh))
  simp [Handler.sessionIdFromHeaders, h1, h2, pyOr, truthy]

/-- C3: when the initialize handshake response carries an error field in its
body or omits the session-identifier header (under any casing), the session
registry's state for that scope is unchanged (no handle cached) and a
session error is surfaced; consequently every subsequent invocation in that
scope re-attempts the initialize handshake from scratch.  Covers the
account scope and the global scope. -/
theorem C3_failed_handshake_not_cached :
    (∀ (env : GwEnv) (st : BridgeState) (a : String) (ctx : CredCtx)
       (body : Body) (headers : Headers),
       lookupA st.session_cache a = none →
       env.mcp (Handler.initCall ctx) = .ok (body, headers) →
       (hasErrorKey body = true ∨ ∀ p ∈ headers, lowerStr p.1 ≠ "mcp-session-id") →
       Handler.get_or_create_mcp_session env st a ctx =
         (st, [Event.mcpPost (Handler.initCall ctx)],
          .error "Failed to initialize MCP session") ∧
       (∀ (env2 : GwEnv) (ctx2 : CredCtx),
         (Handler.get_or_create_mcp_session env2 st a ctx2).2.1 =
           [Event.mcpPost (Handler.initCall ctx2)])) ∧
    (∀ (env : GwEnv) (st : BridgeState) (body : Body) (headers : Headers),
       truthy st.global_session_id = false →
       env.mcp Handler.initCallGlobal = .ok (body, headers) →
       (hasErrorKey body = true ∨ ∀ p ∈ headers, lowerStr p.1 ≠ "mcp-session-id") →
       Handler.get_or_create_global_mcp_session env st =
         (st, [Event.mcpPost Handler.initCallGlobal],
          .error "Failed to initialize global MCP session") ∧
       (∀ env2 : GwEnv,
         (Handler.get_or_create_global_mcp_session env2 st).2.1 =
           [Event.mcpPost Handler.initCallGlobal])) := by
  have hfailcond : ∀ (body : Body) (headers : Headers),
      (hasErrorKey body = true ∨ ∀ p ∈ headers, lowerStr p.1 ≠ "mcp-session-id") →
      (truthy (Handler.sessionIdFromHeaders headers) && !hasErrorKey body) = false := by
    intro body headers hfail
    rcases hfail with herr | homit
    · simp [herr]
    · simp [sessionIdFromHeaders_none headers homit, truthy]
  constructor
  · intro env st a ctx body headers hs hresp hfail
    exact ⟨Handler.session_miss_fail env st a ctx body headers hs hresp
        (hfailcond body headers hfail),
      fun env2 ctx2 => session_miss_events env2 st a ctx2 hs⟩
  · intro env st body headers hg hresp hfail
    exact ⟨Handler.global_session_miss_fail env st body headers hg hresp
        (hfailcond body headers hfail),
      fun env2 => global_session_miss_events env2 st hg⟩

/-- C3 witness: in envW3 (bodies carry an error field, no session header),
the account-scope handshake for 222222222222 fails, caches nothing, and a
retry emits exactly one new initialize event. -/
theorem C3_failed_handshake_not_cached_witness :
    Handler.get_or_create_mcp_session envW3 st0 "222222222222" CredCtx.lambdaOwn =
      (st0, [Event.mcpPost (Handler.initCall CredCtx.lambdaOwn)],
       .error "Failed to initialize MCP session") ∧
    (Handler.get_or_create_mcp_session envW2 st0 "222222222222"
      CredCtx.lambdaOwn).2.1 = [Event.mcpPost (Handler.initCall CredCtx.lambdaOwn)] := by
  have h := C3_failed_handshake_not_cached.1 envW3 st0 "222222222222"
    CredCtx.lambdaOwn [("error", Json.str "boom")] [] rfl rfl
    (Or.inl (by decide))
  exact ⟨h.1, h.2 envW2 CredCtx.lambdaOwn⟩

theorem get_credentials_frame (env : GwEnv) (st st' : BridgeState) (a : String)
    (evs : List Event) (r : Except String Creds)
    (h : Handler.get_credentials env st a = (st', evs, r)) :
    st'.session_cache = st.session_cache ∧
    st'.global_session_id = st.global_session_id ∧
    evs.countP isInitEvent = 0 ∧
    (∀ c, Event.mcpPost c ∈ evs → False) := by
  rcases Handler.get_credentials_shape env st a st' evs r h with
    ⟨hevs, hst, _⟩ | ⟨hevs, ⟨rr, _, _, hst⟩ | ⟨m, _, _, hst⟩⟩
  · subst hst
    subst hevs
    simp
  · subst hst
    subst hevs
    refine ⟨rfl, rfl, by simp [isInitEvent], ?_⟩
    intro c hc
    simp at hc
  · subst hst
    subst hevs
    refine ⟨rfl, rfl, by simp [isInitEvent], ?_⟩
    intro c hc
    simp at hc

theorem call_aws_mcp_ok_session_cached (env : GwEnv) (st st1 : BridgeState)
    (t : String) (args : Json) (a region : String) (evs1 : List Event) (b : Body)
    (hs0 : lookupA st.session_cache a = none)
    (h : Handler.call_aws_mcp env st t args a region = (st1, evs1, .ok b)) :
    ∃ sid, lookupA st1.session_cache a = some sid ∧ sid ≠ "" ∧
      evs1.countP isInitEvent = 1 := by
  rcases Handler.call_aws_mcp_unfold env st t args a region st1 evs1 _ h with
    ⟨stc, evsc, rc, hgc, hbr⟩
  rcases hbr with ⟨m, hrc, _, _, hbad⟩ | ⟨c, hrc, st2, evs2, rs, hs, hbr2⟩
  · cases hbad
  · have hframe := get_credentials_frame env st stc a evsc rc hgc
    have hsc : lookupA stc.session_cache a = none := by
      rw [hframe.1]
      exact hs0
    rcases Handler.session_shape env stc a (CredCtx.assumed c region) st2 evs2 rs hs with
      ⟨_, _, sid, _, hlk⟩ | ⟨_, hevs2, ⟨sid, hrs, hne, hst2⟩ | ⟨m, hrs, _⟩⟩
    · rw [hsc] at hlk
      cases hlk
    · rcases hbr2 with ⟨m, hbad, _⟩ | ⟨sid', hok, evs3, rr, hm, hst', hevs, hbr3⟩
      · rw [hrs] at hbad
        cases hbad
      · have hsid' : sid = sid' := by
          rw [hrs] at hok
          injection hok
        subst hsid'
        rcases Handler.make_mcp_request_shape env _ _ _ _ evs3 rr hm with ⟨hevs3, _⟩
        refine ⟨sid, ?_, hne, ?_⟩
        · rw [hst', hst2]
          exact lookupA_insertA_self _ _ _
        · subst hevs
          subst hevs3
          subst hevs2
          rcases hframe.2.2 with ⟨hcnt, _⟩
          simp [List.countP_append, hcnt, isInitEvent, Handler.initCall]
    · rcases hbr2 with ⟨m', _, _, _, hcontra⟩ | ⟨sid', hok, _⟩
      · cases hcontra
      · rw [hrs] at hok
        cases hok

theorem call_aws_mcp_with_session (env : GwEnv) (st st2 : BridgeState)
    (t : String) (args : Json) (a region sid : String) (evs2 : List Event)
    (r2 : Except String Body)
    (hsid : lookupA st.session_cache a = some sid)
    (h : Handler.call_aws_mcp env st t args a region = (st2, evs2, r2)) :
    evs2.countP isInitEvent = 0 ∧
    (∀ c, Event.mcpPost c ∈ evs2 → c.method = "tools/call" ∧
      c.sessionHeader = Handler.sessionHeaderOf (some sid)) := by
  rcases Handler.call_aws_mcp_unfold env st t args a region st2 evs2 r2 h with
    ⟨stc, evsc, rc, hgc, hbr⟩
  have hframe := get_credentials_frame env st stc a evsc rc hgc
  rcases hbr with ⟨m, hrc, _, hevs, _⟩ | ⟨c, hrc, st2', evs2', rs, hs, hbr2⟩
  · subst hevs
    exact ⟨hframe.2.2.1, fun c hc => absurd hc (by
      intro hc
      exact hframe.2.2.2 c hc)⟩
  · have hsc : lookupA stc.session_cache a = some sid := by
      rw [hframe.1]
      exact hsid
    have hsess := Handler.session_hit env stc a (CredCtx.assumed c region) sid hsc
    have hcomb := hsess.symm.trans hs
    simp only [Prod.mk.injEq] at hcomb
    obtain ⟨hst2', hevs2', hrs⟩ := hcomb
    rcases hbr2 with ⟨m, hbad, _, hevs, _⟩ | ⟨sid', hok, evs3, rr, hm, hst', hevs, _⟩
    · rw [← hrs] at hbad
      cases hbad
    · have hsid' : sid' = sid := by
        rw [← hrs] at hok
        cases hok
        rfl
      subst hsid'
      rcases Handler.make_mcp_request_shape env _ _ _ _ evs3 rr hm with ⟨hevs3, _⟩
      subst hevs
      subst hevs3
      rw [← hevs2']
      constructor
      · simp [List.countP_append, hframe.2.2.1, isInitEvent]
      · intro c' hc'
        simp only [List.append_nil, List.mem_append] at hc'
        rcases hc' with hc' | hc'
        · exact absurd hc' (fun hmem => hframe.2.2.2 c' hmem)
        · simp at hc'
          subst hc'
          exact ⟨rfl, rfl⟩

theorem truthy_some_of_ne {sid : String} (h : sid ≠ "") :
    truthy (some sid) = true := by
  simp only [truthy, Bool.not_eq_true']
  cases he : sid.isEmpty with
  | false => rfl
  | true => exact absurd ((String.isEmpty_iff sid).mp he) h

theorem call_global_ok_session_cached (env : GwEnv) (st st1 : BridgeState)
    (t : String) (args : Json) (evs1 : List Event) (b : Body)
    (h : Handler.call_aws_mcp_global env st t args = (st1, evs1, .ok b)) :
    ∃ sid, st1.global_session_id = some sid ∧ sid ≠ "" ∧
      evs1.countP isInitEvent ≤ 1 := by
  rcases Handler.call_aws_mcp_global_unfold env st t args st1 evs1 _ h with
    ⟨stg, evsg, rs, hgs, hbr⟩
  rcases hbr with ⟨m, hrs, _, _, hbad⟩ | ⟨sid, hrs, evs2, rr, hm, hst', hevs, hbr2⟩
  · cases hbad
  · rcases Handler.make_mcp_request_shape env _ _ _ _ evs2 rr hm with ⟨hevs2, _⟩
    rcases Handler.global_session_shape env st stg evsg rs hgs with
      ⟨hevsg, hstg, sid', hok, hlk, hne⟩ | ⟨hevsg, ⟨sid', hok, hne, hstg⟩ | ⟨m, hbad, _⟩⟩
    · have hsid : sid = sid' := by
        rw [hrs] at hok
        injection hok
      subst hsid
      refine ⟨sid, ?_, hne, ?_⟩
      · rw [hst', hstg]
        exact hlk
      · subst hevs
        subst hevs2
        subst hevsg
        simp [List.countP_append, isInitEvent]
    · have hsid : sid = sid' := by
        rw [hrs] at hok
        injection hok
      subst hsid
      refine ⟨sid, ?_, hne, ?_⟩
      · rw [hst', hstg]
      · subst hevs
        subst hevs2
        subst hevsg
        simp [List.countP_append, isInitEvent, Handler.initCallGlobal]
    · rw [hrs] at hbad
      cases hbad

theorem call_global_with_session (env : GwEnv) (st st2 : BridgeState)
    (t : String) (args : Json) (sid : String) (evs2 : List Event)
    (r2 : Except String Body)
    (hsid : st.global_session_id = some sid) (hne : sid ≠ "")
    (h : Handler.call_aws_mcp_global env st t args = (st2, evs2, r2)) :
    evs2.countP isInitEvent = 0 ∧
    (∀ c, Event.mcpPost c ∈ evs2 → c.method = "tools/call" ∧
      c.sessionHeader = Handler.sessionHeaderOf (some sid)) := by
  rcases Handler.call_aws_mcp_global_unfold env st t args st2 evs2 r2 h with
    ⟨stg, evsg, rs, hgs, hbr⟩
  have htr : truthy st.global_session_id = true := by
    rw [hsid]
    exact truthy_some_of_ne hne
  have hhit := Handler.global_session_hit env st htr
  have hcomb := hhit.symm.trans hgs
  simp only [Prod.mk.injEq] at hcomb
  obtain ⟨hstg, hevsg, hrs⟩ := hcomb
  have hgetd : st.global_session_id.getD "" = sid := by
    rw [hsid]
    rfl
  rcases hbr with ⟨m, hbad, _, hevs, _⟩ | ⟨sid', hok, evs3, rr, hm, hst', hevs, _⟩
  · rw [← hrs] at hbad
    cases hbad
  · have hsid' : sid' = sid := by
      rw [← hrs] at hok
      rw [hgetd] at hok
      injection hok
      exact (by assumption : sid = sid').symm
    subst hsid'
    rcases Handler.make_mcp_request_shape env _ _ _ _ evs3 rr hm with ⟨hevs3, _⟩
    subst hevs
    subst hevs3
    rw [← hevsg]
    constructor
    · simp [isInitEvent]
    · intro c' hc'
      simp only [List.nil_append, List.mem_singleton, Event.mcpPost.injEq] at hc'
      subst hc'
      exact ⟨rfl, rfl⟩

/-- Witness environment whose MCP endpoint completes the handshake with
session id sess-1 and answers tools/call with a result body. -/
def envOkM : GwEnv :=
  ⟨1000, fun _ => .ok stsRespW,
   fun c => if c.method == "initialize" then .ok ([], [("Mcp-Session-Id", "sess-1")])
            else .ok ([("result", Json.str "ok")], [])⟩

/-- C4: once a session handle has been cached after a successful handshake,
every subsequent tools/call invocation in that scope reuses that exact
handle as its session request header and issues no further initialize call;
starting from a fresh scope, a successful invocation performs exactly one
initialize, and any following invocation in the same scope performs none
and carries the handle obtained by the first.  Covers the account scope and
the global scope. -/
theorem C4_session_reuse :
    (∀ (env : GwEnv) (st : BridgeState) (a : String) (ctx : CredCtx) (sid : String),
       lookupA st.session_cache a = some sid →
       Handler.get_or_create_mcp_session env st a ctx = (st, [], .ok sid)) ∧
    (∀ (env1 env2 : GwEnv) (st st1 st2 : BridgeState) (evs1 evs2 : List Event)
       (t1 t2 a region1 region2 : String) (args1 args2 : Json) (b1 : Body)
       (r2 : Except String Body),
       lookupA st.session_cache a = none →
       Handler.call_aws_mcp env1 st t1 args1 a region1 = (st1, evs1, .ok b1) →
       Handler.call_aws_mcp env2 st1 t2 args2 a region2 = (st2, evs2, r2) →
       evs1.countP isInitEvent = 1 ∧
       evs2.countP isInitEvent = 0 ∧
       ∃ sid, lookupA st1.session_cache a = some sid ∧
         ∀ c, Event.mcpPost c ∈ evs2 → c.method = "tools/call" →
           c.sessionHeader = some sid) ∧
    (∀ (env1 env2 : GwEnv) (st st1 st2 : BridgeState) (evs1 evs2 : List Event)
       (t1 t2 : String) (args1 args2 : Json) (b1 : Body) (r2 : Except String Body),
       Handler.call_aws_mcp_global env1 st t1 args1 = (st1, evs1, .ok b1) →
       Handler.call_aws_mcp_global env2 st1 t2 args2 = (st2, evs2, r2) →
       evs1.countP isInitEvent ≤ 1 ∧
       evs2.countP isInitEvent = 0 ∧
       ∃ sid, st1.global_session_id = some sid ∧
         ∀ c, Event.mcpPost c ∈ evs2 → c.method = "tools/call" →
           c.sessionHeader = some sid) := by
  refine ⟨?_, ?_, ?_⟩
  · intro env st a ctx sid hs
    exact Handler.session_hit env st a ctx sid hs
  · intro env1 env2 st st1 st2 evs1 evs2 t1 t2 a region1 region2 args1 args2 b1 r2
      hs0 h1 h2
    rcases call_aws_mcp_ok_session_cached env1 st st1 t1 args1 a region1 evs1 b1
      hs0 h1 with ⟨sid, hlk, hne, hcnt1⟩
    rcases call_aws_mcp_with_session env2 st1 st2 t2 args2 a region2 sid evs2 r2
      hlk h2 with ⟨hcnt2, hall⟩
    refine ⟨hcnt1, hcnt2, sid, hlk, ?_⟩
    intro c hc _
    exact ((hall c hc).2).trans (Handler.sessionHeaderOf_some_ne hne)
  · intro env1 env2 st st1 st2 evs1 evs2 t1 t2 args1 args2 b1 r2 h1 h2
    rcases call_global_ok_session_cached env1 st st1 t1 args1 evs1 b1 h1 with
      ⟨sid, hgl, hne, hcnt1⟩
    rcases call_global_with_session env2 st1 st2 t2 args2 sid evs2 r2 hgl hne h2 with
      ⟨hcnt2, hall⟩
    refine ⟨hcnt1, hcnt2, sid, hgl, ?_⟩
    intro c hc _
    exact ((hall c hc).2).trans (Handler.sessionHeaderOf_some_ne hne)

/-- State after the first successful account-scoped invocation in envOkM. -/
def stW2 : BridgeState :=
  ⟨[("222222222222", credsW)], [("222222222222", "sess-1")], none⟩

/-- Events of the first invocation in envOkM: role assumption. -/
def evAssumeW : Event := Event.assumeRole "222222222222" ("Bridge-" ++ "222222222222") 3600

/-- Events of the first invocation in envOkM: initialize handshake. -/
def evInitW : Event :=
  Event.mcpPost (Handler.initCall (CredCtx.assumed credsW "us-east-1"))

/-- Events of the first invocation in envOkM: the tools/call POST. -/
def evCall1W : Event :=
  Event.mcpPost ⟨"tools/call", Params.callParams "aws___list_regions" (Json.obj []),
    CredCtx.assumed credsW "us-east-1", some "sess-1"⟩

/-- Event of the second invocation in envOkM: its tools/call POST. -/
def evCall2W : Event :=
  Event.mcpPost ⟨"tools/call", Params.callParams "aws___describe" (Json.obj []),
    CredCtx.assumed credsW "us-east-1", some "sess-1"⟩

/-- C4 witness: in envOkM, the first account-scoped invocation performs
exactly one initialize and the second performs none, reusing session
sess-1. -/
theorem C4_session_reuse_witness :
    [evAssumeW, evInitW, evCall1W].countP isInitEvent = 1 ∧
    [evCall2W].countP isInitEvent = 0 := by
  have h1 : Handler.call_aws_mcp envOkM st0 "aws___list_regions" (Json.obj [])
      "222222222222" "us-east-1" =
      (stW2, [evAssumeW, evInitW, evCall1W], .ok [("result", Json.str "ok")]) := rfl
  have h2 : Handler.call_aws_mcp envOkM stW2 "aws___describe" (Json.obj [])
      "222222222222" "us-east-1" =
      (stW2, [evCall2W], .ok [("result", Json.str "ok")]) := rfl
  have h := C4_session_reuse.2.1 envOkM envOkM st0 stW2 stW2
    [evAssumeW, evInitW, evCall1W] [evCall2W] "aws___list_regions" "aws___describe"
    "222222222222" "us-east-1" "us-east-1" (Json.obj []) (Json.obj [])
    [("result", Json.str "ok")] (.ok [("result", Json.str "ok")]) rfl h1 h2
  exact ⟨h.1, h.2.1⟩

/-- Witness environment whose MCP endpoint returns the session id under the
all-uppercase header key MCP-SESSION-ID and an error-free body. -/
def envCaseM : GwEnv :=
  ⟨1000, fun _ => .ok stsRespW,
   fun c => if c.method == "initialize" then .ok ([], [("MCP-SESSION-ID", "sess-9")])
            else .ok ([("result", Json.str "ok")], [])⟩

/-- C7 counterexample: an initialize response that carries the session
identifier under the casing MCP-SESSION-ID of the header key, with an
error-free body, is nevertheless treated as a failed handshake: the bridge
raises and caches no session, because the header lookup checks only the two
exact keys Mcp-Session-Id and mcp-session-id. -/
theorem C7_header_casing_counterexample :
    lookupA [("MCP-SESSION-ID", "sess-9")] "MCP-SESSION-ID" = some "sess-9" ∧
    lowerStr "MCP-SESSION-ID" = "mcp-session-id" ∧
    hasErrorKey ([] : Body) = false ∧
    Handler.get_or_create_mcp_session envCaseM st0 "222222222222" CredCtx.lambdaOwn =
      (st0, [Event.mcpPost (Handler.initCall CredCtx.lambdaOwn)],
       .error "Failed to initialize MCP session") := by
  refine ⟨rfl, by decide, rfl, rfl⟩

/-- C7 amended: the handshake is treated as successful exactly when the
body has no error field and a non-empty session identifier is found under
one of the two exact header keys Mcp-Session-Id or mcp-session-id (dict
lookup is case-sensitive; other capitalizations are not recognized): in the
successful case the identifier is cached and returned, otherwise nothing is
cached and a session error is raised. -/
theorem C7_handshake_success_condition (env : GwEnv) (st : BridgeState)
    (a : String) (ctx : CredCtx) (body : Body) (headers : Headers)
    (hs : lookupA st.session_cache a = none)
    (hresp : env.mcp (Handler.initCall ctx) = .ok (body, headers)) :
    ((truthy (Handler.sessionIdFromHeaders headers) && !hasErrorKey body) = true →
      Handler.get_or_create_mcp_session env st a ctx =
        ({ st with session_cache := insertA st.session_cache a ((Handler.sessionIdFromHeaders headers).getD "") },
         [Event.mcpPost (Handler.initCall ctx)],
         .ok ((Handler.sessionIdFromHeaders headers).getD ""))) ∧
    ((truthy (Handler.sessionIdFromHeaders headers) && !hasErrorKey body) = false →
      Handler.get_or_create_mcp_session env st a ctx =
        (st, [Event.mcpPost (Handler.initCall ctx)],
         .error "Failed to initialize MCP session")) := by
  constructor
  · intro hcond
    exact Handler.session_miss_ok env st a ctx body headers hs hresp hcond
  · intro hcond
    exact Handler.session_miss_fail env st a ctx body headers hs hresp hcond

/-- C7 witness: with the exact key Mcp-Session-Id the handshake succeeds
and caches sess-1; with the key MCP-SESSION-ID it fails and caches
nothing. -/
theorem C7_handshake_success_condition_witness :
    Handler.get_or_create_mcp_session envOkM st0 "222222222222" CredCtx.lambdaOwn =
      ({ st0 with session_cache := insertA st0.session_cache "222222222222" ((Handler.sessionIdFromHeaders [("Mcp-Session-Id", "sess-1")]).getD "") },
       [Event.mcpPost (Handler.initCall CredCtx.lambdaOwn)],
       .ok ((Handler.sessionIdFromHeaders [("Mcp-Session-Id", "sess-1")]).getD "")) ∧
    Handler.get_or_create_mcp_session envCaseM st0 "222222222222" CredCtx.lambdaOwn =
      (st0, [Event.mcpPost (Handler.initCall CredCtx.lambdaOwn)],
       .error "Failed to initialize MCP session") := by
  constructor
  · exact (C7_handshake_success_condition envOkM st0 "222222222222" CredCtx.lambdaOwn
      [] [("Mcp-Session-Id", "sess-1")] rfl rfl).1 rfl
  · exact (C7_handshake_success_condition envCaseM st0 "222222222222" CredCtx.lambdaOwn
      [] [("MCP-SESSION-ID", "sess-9")] rfl rfl).2 rfl

/-- Gateway event naming an operation absent from the global tool set. -/
def evUnknownW : Handler.GatewayEvent :=
  ⟨some "222222222222", some "totally_unknown_op", some (Json.obj []), some "us-east-1"⟩

/-- Tools/call POST issued for the unknown operation name in envOkM. -/
def evCallUW : Event :=
  Event.mcpPost ⟨"tools/call", Params.callParams "totally_unknown_op" (Json.obj []),
    CredCtx.assumed credsW "us-east-1", some "sess-1"⟩

/-- C1 counterexample: the operation name totally_unknown_op is absent from
the global tool set, yet the handler does not reject it: it defaults it to
the account scope, performs a role assumption (a network call) plus
initialize and tools/call, and returns the downstream body instead of an
unknown-operation error. -/
theorem C1_unknown_operation_counterexample :
    Handler.GLOBAL_TOOLS.contains "totally_unknown_op" = false ∧
    (Handler.handler envOkM st0 "bridge-lambda___query" evUnknownW).2.1.countP
      isAssumeEvent = 1 ∧
    (Handler.handler envOkM st0 "bridge-lambda___query" evUnknownW).2.1.countP
      isInitEvent = 1 ∧
    (Handler.handler envOkM st0 "bridge-lambda___query" evUnknownW).2.2 =
      Handler.Response.raw [("result", Json.str "ok")] := by
  refine ⟨rfl, rfl, rfl, rfl⟩

/-- C1 amended: the bridge never rejects an operation name at classification
time; a name absent from the global tool set is defaulted to the account
scope and, when a truthy account id is present, forwarded downstream.  Only
the gateway-level tool name is rejected: when it is not query, the handler
returns an Unknown tool error immediately with no network call. -/
theorem C1_unknown_operation_amended :
    (∀ (env : GwEnv) (st : BridgeState) (full : String)
       (event : Handler.GatewayEvent) (t : String) (st1 : BridgeState)
       (evs : List Event) (r : Except String Body),
       Handler.splitToolName full = "query" →
       event.tool_name = some t →
       truthy (some t) = true →
       Handler.GLOBAL_TOOLS.contains t = false →
       truthy event.account_id = true →
       Handler.call_aws_mcp env st t ((event.arguments).getD (Json.obj []))
         (event.account_id.getD "") ((event.region).getD "us-east-1") =
           (st1, evs, r) →
       Handler.handler env st full event = (st1, evs, Handler.renderResult r)) ∧
    (∀ (env : GwEnv) (st : BridgeState) (full : String)
       (event : Handler.GatewayEvent),
       ¬ Handler.splitToolName full = "query" →
       Handler.handler env st full event =
         (st, [], .errorObj ("Unknown tool: " ++ Handler.splitToolName full))) := by
  constructor
  · intro env st full event t st1 evs r hq ht htt hg ha hcall
    exact Handler.handler_account env st full event t st1 evs r hq ht htt hg ha hcall
  · intro env st full event hq
    exact Handler.handler_not_query env st full event hq

/-- C1 amended witness: the unknown operation name is routed to the
account-scoped call in envOkM, while the unknown gateway tool name
bridge-lambda___unknown_tool yields an immediate Unknown tool error with no
events. -/
theorem C1_unknown_operation_amended_witness :
    Handler.handler envOkM st0 "bridge-lambda___query" evUnknownW =
      (stW2, [evAssumeW, evInitW, evCallUW],
       Handler.renderResult (.ok [("result", Json.str "ok")])) ∧
    Handler.handler envOkM st0 "bridge-lambda___unknown_tool" evUnknownW =
      (st0, [], .errorObj ("Unknown tool: " ++
        Handler.splitToolName "bridge-lambda___unknown_tool")) := by
  constructor
  · exact C1_unknown_operation_amended.1 envOkM st0 "bridge-lambda___query"
      evUnknownW "totally_unknown_op" stW2 [evAssumeW, evInitW, evCallUW]
      (.ok [("result", Json.str "ok")]) (by decide) rfl (by decide) (by decide)
      (by decide) rfl
  · exact C1_unknown_operation_amended.2 envOkM st0 "bridge-lambda___unknown_tool"
      evUnknownW (by decide)

theorem session_events_shape (env : GwEnv) (st st' : BridgeState) (a : String)
    (ctx : CredCtx) (evs : List Event) (r : Except String String)
    (h : Handler.get_or_create_mcp_session env st a ctx = (st', evs, r)) :
    evs = [] ∨ evs = [Event.mcpPost (Handler.initCall ctx)] := by
  rcases Handler.session_shape env st a ctx st' evs r h with
    ⟨hevs, _⟩ | ⟨_, hevs, _⟩
  · exact Or.inl hevs
  · exact Or.inr hevs

theorem global_session_events_shape (env : GwEnv) (st st' : BridgeState)
    (evs : List Event) (r : Except String String)
    (h : Handler.get_or_create_global_mcp_session env st = (st', evs, r)) :
    evs = [] ∨ evs = [Event.mcpPost Handler.initCallGlobal] := by
  rcases Handler.global_session_shape env st st' evs r h with
    ⟨hevs, _⟩ | ⟨hevs, _⟩
  · exact Or.inl hevs
  · exact Or.inr hevs

theorem get_credentials_events_shape (env : GwEnv) (st st' : BridgeState)
    (a : String) (evs : List Event) (r : Except String Creds)
    (h : Handler.get_credentials env st a = (st', evs, r)) :
    evs = [] ∨ evs = [Event.assumeRole a ("Bridge-" ++ a) 3600] := by
  rcases Handler.get_credentials_shape env st a st' evs r h with
    ⟨hevs, _⟩ | ⟨hevs, _⟩
  · exact Or.inl hevs
  · exact Or.inr hevs

theorem call_aws_mcp_trace_spec (env : GwEnv) (st st1 : BridgeState)
    (t : String) (args : Json) (a region : String) (evs : List Event)
    (r : Except String Body)
    (h : Handler.call_aws_mcp env st t args a region = (st1, evs, r)) :
    (∀ b, r = .ok b → ∃ c hh, Event.mcpPost c ∈ evs ∧
      c.method = "tools/call" ∧ env.mcp c = NetResult.ok (b, hh)) ∧
    evs.countP isAssumeEvent ≤ 1 ∧
    evs.countP isInitEvent ≤ 1 ∧
    evs.countP isToolsCallEvent ≤ 1 := by
  rcases Handler.call_aws_mcp_unfold env st t args a region st1 evs r h with
    ⟨stc, evsc, rc, hgc, hbr⟩
  have hevsc := get_credentials_events_shape env st stc a evsc rc hgc
  rcases hbr with ⟨m, hrc, _, hevs, hr⟩ | ⟨c, hrc, st2, evs2, rs, hs, hbr2⟩
  · subst hevs
    subst hr
    refine ⟨?_, ?_, ?_, ?_⟩
    · intro b hb
      cases hb
    all_goals rcases hevsc with hevsc | hevsc <;>
      simp [hevsc, isAssumeEvent, isInitEvent, isToolsCallEvent]
  · have hevs2 := session_events_shape env stc st2 a _ evs2 rs hs
    rcases hbr2 with ⟨m, hrs, _, hevs, hr⟩ | ⟨sid, hrs, evs3, rr, hm, hst', hevs, hbr3⟩
    · subst hevs
      subst hr
      refine ⟨?_, ?_, ?_, ?_⟩
      · intro b hb
        cases hb
      all_goals rcases hevsc with hevsc | hevsc <;> rcases hevs2 with hevs2 | hevs2 <;>
        simp [hevsc, hevs2, List.countP_append, isAssumeEvent, isInitEvent,
          isToolsCallEvent, Handler.initCall]
    · rcases Handler.make_mcp_request_shape env _ _ _ _ evs3 rr hm with ⟨hevs3, hnet⟩
      subst hevs
      subst hevs3
      refine ⟨?_, ?_, ?_, ?_⟩
      · intro b hb
        rcases hbr3 with ⟨m, hrr, hr⟩ | ⟨body, headers, hrr, hr⟩
        · rw [hb] at hr
          cases hr
        · rw [hb] at hr
          have hbody : body = b := by
            injection hr with h1
            exact h1.symm
          subst hbody
          rcases hnet with ⟨bh, hmcp, hrr2⟩ | ⟨m, _, hrr2⟩
          · have hbh : bh = (body, headers) := by
              rw [hrr] at hrr2
              injection hrr2 with h1
              exact h1.symm
            subst hbh
            exact ⟨_, headers, by simp, rfl, hmcp⟩
          · rw [hrr] at hrr2
            cases hrr2
      all_goals rcases hevsc with hevsc | hevsc <;> rcases hevs2 with hevs2 | hevs2 <;>
        simp [hevsc, hevs2, List.countP_append, isAssumeEvent, isInitEvent,
          isToolsCallEvent, Handler.initCall]

theorem call_global_trace_spec (env : GwEnv) (st st1 : BridgeState)
    (t : String) (args : Json) (evs : List Event) (r : Except String Body)
    (h : Handler.call_aws_mcp_global env st t args = (st1, evs, r)) :
    (∀ b, r = .ok b → ∃ c hh, Event.mcpPost c ∈ evs ∧
      c.method = "tools/call" ∧ env.mcp c = NetResult.ok (b, hh)) ∧
    evs.countP isAssumeEvent = 0 ∧
    evs.countP isInitEvent ≤ 1 ∧
    evs.countP isToolsCallEvent ≤ 1 ∧
    (∀ c, Event.mcpPost c ∈ evs → c.ctx = CredCtx.lambdaOwn) := by
  rcases Handler.call_aws_mcp_global_unfold env st t args st1 evs r h with
    ⟨stg, evsg, rs, hgs, hbr⟩
  have hevsg := global_session_events_shape env st stg evsg rs hgs
  rcases hbr with ⟨m, hrs, _, hevs, hr⟩ | ⟨sid, hrs, evs2, rr, hm, hst', hevs, hbr2⟩
  · subst hevs
    subst hr
    refine ⟨?_, ?_, ?_, ?_, ?_⟩
    · intro b hb
      cases hb
    · rcases hevsg with hevsg | hevsg <;>
        simp [hevsg, isAssumeEvent]
    · rcases hevsg with hevsg | hevsg <;>
        simp [hevsg, isInitEvent, Handler.initCallGlobal]
    · rcases hevsg with hevsg | hevsg <;>
        simp [hevsg, isToolsCallEvent, Handler.initCallGlobal]
    · intro c' hc'
      rcases hevsg with hevsg | hevsg
      · subst hevsg
        simp at hc'
      · subst hevsg
        simp only [List.mem_singleton, Event.mcpPost.injEq] at hc'
        subst hc'
        rfl
  · rcases Handler.make_mcp_request_shape env _ _ _ _ evs2 rr hm with ⟨hevs2, hnet⟩
    subst hevs
    subst hevs2
    refine ⟨?_, ?_, ?_, ?_, ?_⟩
    · intro b hb
      rcases hbr2 with ⟨m, hrr, hr⟩ | ⟨body, headers, hrr, hr⟩
      · rw [hb] at hr
        cases hr
      · rw [hb] at hr
        have hbody : body = b := by
          injection hr with h1
          exact h1.symm
        subst hbody
        rcases hnet with ⟨bh, hmcp, hrr2⟩ | ⟨m, _, hrr2⟩
        · have hbh : bh = (body, headers) := by
            rw [hrr] at hrr2
            injection hrr2 with h1
            exact h1.symm
          subst hbh
          exact ⟨_, headers, by simp, rfl, hmcp⟩
        · rw [hrr] at hrr2
          cases hrr2
    · rcases hevsg with hevsg | hevsg <;>
        simp [hevsg, List.countP_append, isAssumeEvent]
    · rcases hevsg with hevsg | hevsg <;>
        simp [hevsg, List.countP_append, isInitEvent, Handler.initCallGlobal]
    · rcases hevsg with hevsg | hevsg <;>
        simp [hevsg, List.countP_append, isToolsCallEvent, Handler.initCallGlobal]
    · intro c' hc'
      rcases hevsg with hevsg | hevsg
      · subst hevsg
        simp only [List.nil_append, List.mem_singleton, Event.mcpPost.injEq] at hc'
        subst hc'
        rfl
      · subst hevsg
        simp only [List.mem_append, List.mem_singleton] at hc'
        rcases hc' with hc' | hc'
        · simp only [Handler.initCallGlobal, Event.mcpPost.injEq] at hc'
          subst hc'
          rfl
        · simp only [Event.mcpPost.injEq] at hc'
          subst hc'
          rfl

/-- C5: a global-tool invocation never triggers a role assumption and signs
every outbound POST with the Lambda's own ambient identity; a non-global
invocation whose account id is missing or empty returns the
missing-account_id validation error with no network call (no events). -/
theorem C5_scope_isolation :
    (∀ (env : GwEnv) (st : BridgeState) (full : String)
       (event : Handler.GatewayEvent) (t : String),
       Handler.splitToolName full = "query" →
       event.tool_name = some t →
       Handler.GLOBAL_TOOLS.contains t = true →
       (Handler.handler env st full event).2.1.countP isAssumeEvent = 0 ∧
       (∀ c, Event.mcpPost c ∈ (Handler.handler env st full event).2.1 →
         c.ctx = CredCtx.lambdaOwn)) ∧
    (∀ (env : GwEnv) (st : BridgeState) (full : String)
       (event : Handler.GatewayEvent) (t : String),
       Handler.splitToolName full = "query" →
       event.tool_name = some t →
       truthy (some t) = true →
       Handler.GLOBAL_TOOLS.contains t = false →
       truthy event.account_id = false →
       Handler.handler env st full event =
         (st, [], .errorObj ("Missing account_id (required for " ++ t ++ ")"))) := by
  constructor
  · intro env st full event t hq ht hg
    have htt : truthy (some t) = true := by
      have hmem : t ∈ Handler.GLOBAL_TOOLS := by simpa using hg
      fin_cases hmem <;> decide
    rcases hcall : Handler.call_aws_mcp_global env st t
      ((event.arguments).getD (Json.obj [])) with ⟨st1, evs, r⟩
    have heq := Handler.handler_global env st full event t st1 evs r hq ht htt hg hcall
    rcases call_global_trace_spec env st st1 t _ evs r hcall with
      ⟨_, hassume, _, _, hctx⟩
    rw [heq]
    exact ⟨hassume, fun c hc => hctx c hc⟩
  · intro env st full event t hq ht htt hg ha
    exact Handler.handler_missing_account env st full event t hq ht htt hg ha

/-- Gateway event invoking the global tool aws___recommend with no account. -/
def evGlobalW : Handler.GatewayEvent :=
  ⟨none, some "aws___recommend", some (Json.obj []), none⟩

/-- Gateway event invoking an account-scoped tool without an account id. -/
def evNoAcctW : Handler.GatewayEvent :=
  ⟨none, some "totally_unknown_op", some (Json.obj []), some "us-east-1"⟩

/-- C5 witness: the global invocation in envOkM performs no role assumption,
and the account-scoped invocation without account_id returns the validation
error with no events. -/
theorem C5_scope_isolation_witness :
    (Handler.handler envOkM st0 "bridge-lambda___query" evGlobalW).2.1.countP
      isAssumeEvent = 0 ∧
    Handler.handler envOkM st0 "bridge-lambda___query" evNoAcctW =
      (st0, [], .errorObj
        ("Missing account_id (required for " ++ "totally_unknown_op" ++ ")")) := by
  constructor
  · exact (C5_scope_isolation.1 envOkM st0 "bridge-lambda___query" evGlobalW
      "aws___recommend" (by decide) rfl (by decide)).1
  · exact C5_scope_isolation.2 envOkM st0 "bridge-lambda___query" evNoAcctW
      "totally_unknown_op" (by decide) rfl (by decide) (by decide) (by decide)

/-- C6: on the gateway query path the handler's result is either the raw
downstream tools/call body returned unchanged, or a structured error object
(every exception is caught and rendered as one); within one invocation no
remote call is retried: at most one role assumption, one initialize and one
tools/call occur. -/
theorem C6_handler_output_contract (env : GwEnv) (st : BridgeState)
    (full : String) (event : Handler.GatewayEvent)
    (hq : Handler.splitToolName full = "query") :
    ((∃ b, (Handler.handler env st full event).2.2 = Handler.Response.raw b ∧
        ∃ c hh, Event.mcpPost c ∈ (Handler.handler env st full event).2.1 ∧
          c.method = "tools/call" ∧ env.mcp c = NetResult.ok (b, hh)) ∨
     (∃ m, (Handler.handler env st full event).2.2 =
        Handler.Response.errorObj m)) ∧
    (Handler.handler env st full event).2.1.countP isAssumeEvent ≤ 1 ∧
    (Handler.handler env st full event).2.1.countP isInitEvent ≤ 1 ∧
    (Handler.handler env st full event).2.1.countP isToolsCallEvent ≤ 1 := by
  cases htool : truthy event.tool_name with
  | false =>
    have heq := Handler.handler_missing_tool env st full event hq htool
    rw [heq]
    exact ⟨Or.inr ⟨_, rfl⟩, by simp, by simp, by simp⟩
  | true =>
    rcases hsome : event.tool_name with _ | t
    · rw [hsome] at htool
      simp [truthy] at htool
    · have htt : truthy (some t) = true := by
        rw [← hsome]
        exact htool
      cases hg : Handler.GLOBAL_TOOLS.contains t with
      | true =>
        rcases hcall : Handler.call_aws_mcp_global env st t
          ((event.arguments).getD (Json.obj [])) with ⟨st1, evs, r⟩
        have heq := Handler.handler_global env st full event t st1 evs r hq hsome
          htt hg hcall
        rcases call_global_trace_spec env st st1 t _ evs r hcall with
          ⟨hok, hassume, hinit, htc, _⟩
        rw [heq]
        refine ⟨?_, by simp [hassume], hinit, htc⟩
        cases r with
        | ok b => exact Or.inl ⟨b, rfl, hok b rfl⟩
        | error m => exact Or.inr ⟨m, rfl⟩
      | false =>
        cases hacct : truthy event.account_id with
        | false =>
          have heq := Handler.handler_missing_account env st full event t hq hsome
            htt hg hacct
          rw [heq]
          exact ⟨Or.inr ⟨_, rfl⟩, by simp, by simp, by simp⟩
        | true =>
          rcases hcall : Handler.call_aws_mcp env st t
            ((event.arguments).getD (Json.obj []))
            (event.account_id.getD "") ((event.region).getD "us-east-1") with
            ⟨st1, evs, r⟩
          have heq := Handler.handler_account env st full event t st1 evs r hq
            hsome htt hg hacct hcall
          rcases call_aws_mcp_trace_spec env st st1 t _ _ _ evs r hcall with
            ⟨hok, hassume, hinit, htc⟩
          rw [heq]
          refine ⟨?_, hassume, hinit, htc⟩
          cases r with
          | ok b => exact Or.inl ⟨b, rfl, hok b rfl⟩
          | error m => exact Or.inr ⟨m, rfl⟩

/-- C6 witness: the gateway query invocation with an unreachable endpoint in
envW1 yields a structured error object, with at most one of each remote
call in its trace. -/
theorem C6_handler_output_contract_witness :
    ((∃ b, (Handler.handler envW1 st0 "bridge-lambda___query" evUnknownW).2.2 =
        Handler.Response.raw b ∧
        ∃ c hh, Event.mcpPost c ∈
          (Handler.handler envW1 st0 "bridge-lambda___query" evUnknownW).2.1 ∧
          c.method = "tools/call" ∧ envW1.mcp c = NetResult.ok (b, hh)) ∨
     (∃ m, (Handler.handler envW1 st0 "bridge-lambda___query" evUnknownW).2.2 =
        Handler.Response.errorObj m)) ∧
    (Handler.handler envW1 st0 "bridge-lambda___query" evUnknownW).2.1.countP
      isAssumeEvent ≤ 1 ∧
    (Handler.handler envW1 st0 "bridge-lambda___query" evUnknownW).2.1.countP
      isInitEvent ≤ 1 ∧
    (Handler.handler envW1 st0 "bridge-lambda___query" evUnknownW).2.1.countP
      isToolsCallEvent ≤ 1 :=
  C6_handler_output_contract envW1 st0 "bridge-lambda___query" evUnknownW (by decide)

/-- C10 witness: a naive expiration at wall time 1500 with now = 1000 is
not yet stale (1300 < 1500), and the code agrees with the read-as-UTC
specification at this input. -/
theorem C10_is_expired_reads_naive_as_utc_witness :
    AccountManager._is_expired 1000 ⟨1500, none⟩ =
      decide ((1000 : Int) + 300 ≥ specExpirationReadAsUtc ⟨1500, none⟩) :=
  C10_is_expired_reads_naive_as_utc 1000 ⟨1500, none⟩
